import Mathlib

/-!
Shallow embedding of the transaction-execution orchestrator component
(src/unnamed/part_000, a Svelte component).  The component's script section
is translated definition by definition: the mutable component variables
become an explicit state record, the async effects (wallet signer calls,
the gas-simulation fetch, the multisig backend call, the after hooks)
become oracle values supplied through an environment record, and thrown
JS exceptions become an explicit thrown field threaded alongside the
state (mutations performed before a throw persist, exactly as the
component's mutable variables do).
-/

/-- Closed status set of a timeline item (part_000 lines 45-56).  The TS
type also admits null, but no code path ever assigns null, so the null
member is not modelled. -/
inductive TxStatus
  | awaitingPrevious
  | awaitingSignature
  | submittedToSafe
  | pending
  | confirmed
  | failed
  | cancelled
  | rejected
  | retrying
  | finalizing
deriving DecidableEq, Repr

/-- Chain-call parameters carried by a wrapper (the fields of
wrapper.transaction that part_000 reads: to, data, gasLimit).  The
source field named to is rendered toAddr because to is a reserved
token in Lean. -/
structure TxParams where
  toAddr : Option String
  data : Option String
  gasLimit : Option Int
deriving DecidableEq, Repr

/-- TransactionWrapper: title (join key), chain-call parameters, and the
applyGasBuffer flag. -/
structure TransactionWrapper where
  title : String
  transaction : TxParams
  applyGasBuffer : Bool
deriving DecidableEq, Repr

/-- TransactionWrapperWithGasLimit (part_000 line 39): a wrapper plus the
resolved gas limit, none modelling the undefined initial value. -/
structure TransactionWrapperWithGasLimit extends TransactionWrapper where
  gasLimit : Option Int
deriving DecidableEq, Repr

/-- TransactionTimelineItem (part_000 lines 41-57).  etherscanUrl is
optional; none models the absent field. -/
structure TimelineItem where
  title : String
  message : String
  etherscanUrl : Option String
  status : TxStatus
deriving DecidableEq, Repr

/-- The component's mutable variables that the orchestrator reads and
writes (part_000 lines 59-78).  Presentation-only variables (headline,
description, icon, the during* messages) are omitted: they are assigned
once from the payload and never read by the execution logic. -/
structure CState where
  isRetrying : Bool
  failedTxIndex : Int
  isExecutionCompleted : Bool
  isErrorDetailsVisible : Bool
  error : Option String
  transactionsTimeline : List TimelineItem
deriving DecidableEq, Repr

/-- Initial values of the component variables (part_000 lines 59-78). -/
def initialState : CState :=
  { isRetrying := false
    failedTxIndex := -1
    isExecutionCompleted := false
    isErrorDetailsVisible := false
    error := none
    transactionsTimeline := [] }

/-- getGasBuffer (part_000 lines 438-440): Math.ceil(gasLimit * 1.25).
Since 1.25 is exactly 5/4 in binary floating point and the inputs are
integral gas amounts far below 2^51, the JS computation is the exact
integer ceiling of 5*g/4, i.e. the floor of (5*g+3)/4 (ediv is floor
division for the positive divisor 4). -/
def getGasBuffer (gasLimit : Int) : Int := (5 * gasLimit + 3).ediv 4

/-- Math.ceil(x * 1.25) as applied by the Safe path, where the argument
may be undefined: undefined * 1.25 is NaN and Math.ceil(NaN) is NaN,
modelled as none. -/
def jsGasBuffer : Option Int → Option Int
  | none => none
  | some g => some (getGasBuffer g)

/-- One element of the gas-simulation service response: the estimatedGas
field holds some g when it is the number g, and none when it is missing
or non-numeric. -/
structure SimEntry where
  estimatedGas : Option Int
deriving DecidableEq, Repr

/-- JS property access response.estimatedGas performed by the Safe path
(part_000 line 307) on the parsed simulation response.  The service
returns the aligned list of entries (the EOA path consumes it as
simulationRes[i]); a JSON array value carries no estimatedGas property,
so the destructured value is undefined. -/
def listEstimatedGasField (_response : List SimEntry) : Option Int := none

/-- ASCII lower-casing of a message, modelling String.prototype.toLowerCase
as used on error messages (part_000 lines 271-273, 354). -/
def toLowerStr (s : String) : String := String.mk (s.data.map Char.toLower)

/-- Substring containment on character lists (haystack, needle). -/
def charsContain : List Char → List Char → Bool
  | [], needle => needle.isEmpty
  | h :: t, needle => needle.isPrefixOf (h :: t) || charsContain t needle

/-- Rejection classification (part_000 lines 271-273 and 354):
message.toLowerCase().includes('user rejected transaction'). -/
def isUserRejectionMsg (msg : String) : Bool :=
  charsContain (toLowerStr msg).data "user rejected transaction".data

/-- Explorer-link formatting.  Modelled from the spec: the etherscanLink
utility imported by part_000 is not under src/; the spec describes it as
a pure external utility mapping network name + hash to a URL, so any
injective pure encoding is faithful for the component's purposes. -/
def etherscanLink (networkName hash : String) : String :=
  "etherscan/" ++ networkName ++ "/" ++ hash

/-- The partial update object passed to updateTransactionTimelineStatus.
Every call site sets status and message; etherscanUrl is present at some
call sites only (none models the absent field, which the object spread
leaves unchanged). -/
structure TimelineUpdate where
  status : TxStatus
  message : String
  etherscanUrl : Option String
deriving DecidableEq, Repr

/-- The per-item merge performed by updateTransactionTimelineStatus: the
object spread overwrites status and message, and etherscanUrl only when
the update carries one. -/
def applyTimelineUpdate (title : String) (upd : TimelineUpdate)
    (item : TimelineItem) : TimelineItem :=
  if item.title = title then
    { item with
      status := upd.status
      message := upd.message
      etherscanUrl := upd.etherscanUrl.orElse fun _ => item.etherscanUrl }
  else item

/-- updateTransactionTimelineStatus (part_000 lines 407-419): merge the
update into every item whose title matches the wrapper's title. -/
def updateTransactionTimelineStatus (timeline : List TimelineItem)
    (title : String) (upd : TimelineUpdate) : List TimelineItem :=
  timeline.map (applyTimelineUpdate title upd)

/-- The item built for one wrapper by initTransactionsTimelineItems
(part_000 lines 425-435): item 0 starts awaitingSignature with a
mode-dependent message, later items start awaitingPrevious.  The stray
estimatedGas field assigned there is not part of the item interface and
is never read, so it is not modelled. -/
def initItem (isSafe : Bool) (p : Nat × TransactionWrapper) : TimelineItem :=
  { title := p.2.title
    message :=
      if p.1 = 0 then
        if isSafe then "Waiting for you to submit the transaction in your Safe"
        else "Waiting for you to confirm the transaction in your wallet"
      else "Waiting on previous transaction"
    etherscanUrl := none
    status := if p.1 = 0 then TxStatus.awaitingSignature else TxStatus.awaitingPrevious }

/-- initTransactionsTimelineItems (part_000 lines 421-436): one item per
wrapper, in wrapper order. -/
def initTransactionsTimelineItems (transactionWrappers : List TransactionWrapper)
    (isSafe : Bool) : List TimelineItem :=
  transactionWrappers.enum.map (initItem isSafe)

/-- The per-item remap inside recalculateTimelineStatuses (part_000 lines
380-399): confirmed items are kept, the item at retryIndex becomes
retrying, every other non-confirmed item becomes awaitingPrevious. -/
def recalcRemapItem (retryIndex : Int) (p : Nat × TimelineItem) : TimelineItem :=
  if p.2.status = TxStatus.confirmed then p.2
  else if (p.1 : Int) = retryIndex then
    { p.2 with status := TxStatus.retrying, message := "Preparing to retry..." }
  else
    { p.2 with
      status := TxStatus.awaitingPrevious
      message := "Waiting on previous transaction" }

/-- recalculateTimelineStatuses (part_000 lines 374-400): clear error,
isRetrying, failedTxIndex and the error-details flag, then remap every
item.  retryIndex is kept as an Int because the call site passes
failedTxIndex. -/
def recalculateTimelineStatuses (retryIndex : Int) (st : CState) : CState :=
  { st with
    error := none
    isRetrying := false
    failedTxIndex := -1
    isErrorDetailsVisible := false
    transactionsTimeline := st.transactionsTimeline.enum.map (recalcRemapItem retryIndex) }

/-- The Back button's disabled condition (part_000 line 580):
disabled={!!failedTxIndex}, i.e. JS truthiness of the stored index. -/
def backDisabled (failedTxIndex : Int) : Bool := failedTxIndex != 0

/-- The Try again button's disabled condition (part_000 line 509):
disabled={isRetrying}. -/
def tryAgainDisabled (st : CState) : Bool := st.isRetrying

/-- The Continue button's disabled condition (part_000 line 590):
disabled={!isExecutionCompleted}. -/
def continueDisabled (st : CState) : Bool := !st.isExecutionCompleted

example : getGasBuffer 100 = 125 := by decide
example : getGasBuffer 101 = 127 := by decide
example : isUserRejectionMsg "User Rejected Transaction" = true := by decide
example : isUserRejectionMsg "insufficient funds" = false := by decide
example : backDisabled (-1) = true := by decide
example : backDisabled 0 = false := by decide

/-- The gas limit actually passed to signer.sendTransaction (part_000
line 253): executingTx.gasLimit ?? executingTx.transaction.gasLimit. -/
def effectiveGasLimit (w : TransactionWrapperWithGasLimit) : Option Int :=
  w.gasLimit.orElse fun _ => w.transaction.gasLimit

/-- Error message thrown when EOA gas estimation fails (part_000 line 238;
the interpolated cause is not modelled). -/
def eoaGasFailMsg : String := "Unable to estimate gas for transactions"

/-- Gas assignment for one wrapper (part_000 lines 226-236): skip wrappers
not flagged applyGasBuffer; otherwise read simulationRes[i].estimatedGas,
assert it is a positive number, and store the buffered limit.  A missing
list element (reading a property of undefined throws) and a failed assert
both land in the same catch, which rethrows the estimation error. -/
def assignGas (entries : List SimEntry) (i : Nat) (w : TransactionWrapperWithGasLimit) :
    Except String TransactionWrapperWithGasLimit :=
  if w.applyGasBuffer = false then Except.ok w
  else
    match (entries[i]?).bind SimEntry.estimatedGas with
    | some g =>
      if 0 < g then Except.ok { w with gasLimit := some (getGasBuffer g) }
      else Except.error eoaGasFailMsg
    | none => Except.error eoaGasFailMsg

/-- The forEach over all wrappers assigning buffered gas limits (part_000
lines 226-236), indexed from i. -/
def assignGasLimits (entries : List SimEntry) :
    Nat → List TransactionWrapperWithGasLimit →
    Except String (List TransactionWrapperWithGasLimit)
  | _, [] => Except.ok []
  | i, w :: ws =>
    match assignGas entries i w with
    | Except.error e => Except.error e
    | Except.ok w' =>
      match assignGasLimits entries (i + 1) ws with
      | Except.error e => Except.error e
      | Except.ok ws' => Except.ok (w' :: ws')

/-- Wrappers mapped to TransactionWrapperWithGasLimit with gasLimit
initially undefined (part_000 lines 195-198). -/
def withUndefinedGas (wrappers : List TransactionWrapper) :
    List TransactionWrapperWithGasLimit :=
  wrappers.map fun tx => ⟨tx, none⟩

/-- The simulation phase of handleEoaTransactions (part_000 lines
195-240): simulate only when not in test mode and at least one wrapper
is flagged applyGasBuffer; on fetch failure or any failed gas assert the
whole phase throws.  The Bool records whether the simulation request was
issued. -/
def simulateAndAssign (isTest : Bool) (wrappers : List TransactionWrapper)
    (simFetch : Except String (List SimEntry)) :
    Except String (List TransactionWrapperWithGasLimit) × Bool :=
  let txWrappersWithGas := withUndefinedGas wrappers
  let needToSimulate := !isTest && txWrappersWithGas.any fun tx => tx.applyGasBuffer
  if needToSimulate then
    match simFetch with
    | Except.error _ => (Except.error eoaGasFailMsg, true)
    | Except.ok simulationRes => (assignGasLimits simulationRes 0 txWrappersWithGas, true)
  else (Except.ok txWrappersWithGas, false)

/-- Outcome of one EOA submission attempt, as observed by the component:
sendTransaction and the receipt wait both succeed, sendTransaction
throws, or the wait throws after the pending update. -/
inductive TxOutcome
  | success (txHash receiptHash : String)
  | submitFail (msg : String)
  | confirmFail (txHash : String) (msg : String)
deriving DecidableEq, Repr

/-- Whether an outcome is the fully successful one. -/
def TxOutcome.isSuccessOutcome : TxOutcome → Bool
  | TxOutcome.success _ _ => true
  | _ => false

/-- The catch block of the EOA loop (part_000 lines 270-291): classify
the error message, mark the item rejected or failed (retaining the error
object only in the failed case), and record the failing index. -/
def eoaCatch (executingTx : TransactionWrapperWithGasLimit) (i : Nat) (msg : String)
    (st : CState) : CState :=
  if isUserRejectionMsg msg then
    { st with
      transactionsTimeline :=
        updateTransactionTimelineStatus st.transactionsTimeline executingTx.title
          ⟨TxStatus.rejected, "You rejected the transaction", none⟩
      failedTxIndex := (i : Int) }
  else
    { st with
      transactionsTimeline :=
        updateTransactionTimelineStatus st.transactionsTimeline executingTx.title
          ⟨TxStatus.failed, "Transaction failed", none⟩
      error := some msg
      failedTxIndex := (i : Int) }

/-- The sequential EOA submission loop (part_000 lines 242-293) over the
remaining wrappers, i being the absolute index of the head.  The sent
list records each signer.sendTransaction call as (index, gasLimit
parameter); a failure breaks the loop.  Accumulated receipts are not
modelled: they are only handed to the after hook, whose outcome is an
oracle. -/
def eoaIter (networkName : String) (outcomes : Nat → TxOutcome) :
    List TransactionWrapperWithGasLimit → Nat → CState → List (Nat × Option Int) →
    CState × List (Nat × Option Int)
  | [], _, st, sent => (st, sent)
  | executingTx :: rest, i, st, sent =>
    let t1 := updateTransactionTimelineStatus st.transactionsTimeline executingTx.title
      ⟨TxStatus.awaitingSignature, "Waiting for you to confirm in your wallet", none⟩
    let sent1 := sent ++ [(i, effectiveGasLimit executingTx)]
    match outcomes i with
    | TxOutcome.success txHash receiptHash =>
      let t2 := updateTransactionTimelineStatus t1 executingTx.title
        ⟨TxStatus.pending, "Waiting for confirmation", some (etherscanLink networkName txHash)⟩
      let t3 := updateTransactionTimelineStatus t2 executingTx.title
        ⟨TxStatus.confirmed, "Transaction confirmed", some (etherscanLink networkName receiptHash)⟩
      eoaIter networkName outcomes rest (i + 1) { st with transactionsTimeline := t3 } sent1
    | TxOutcome.submitFail msg =>
      (eoaCatch executingTx i msg { st with transactionsTimeline := t1 }, sent1)
    | TxOutcome.confirmFail txHash msg =>
      let t2 := updateTransactionTimelineStatus t1 executingTx.title
        ⟨TxStatus.pending, "Waiting for confirmation", some (etherscanLink networkName txHash)⟩
      (eoaCatch executingTx i msg { st with transactionsTimeline := t2 }, sent1)

/-- Result of handleEoaTransactions: final component state, the trace of
sendTransaction calls, whether the simulation request was issued, and
the error that escaped the function if one did. -/
structure EoaResult where
  state : CState
  sent : List (Nat × Option Int)
  simRequested : Bool
  thrown : Option String
deriving DecidableEq, Repr

/-- handleEoaTransactions (part_000 lines 185-294). -/
def handleEoaTransactions (isTest : Bool) (networkName : String)
    (transactionWrappers : List TransactionWrapper)
    (simFetch : Except String (List SimEntry)) (outcomes : Nat → TxOutcome)
    (startIndex : Int) (st : CState) : EoaResult :=
  match simulateAndAssign isTest transactionWrappers simFetch with
  | (Except.error e, simReq) =>
    { state := st, sent := [], simRequested := simReq, thrown := some e }
  | (Except.ok txWrappersWithGas, simReq) =>
    if startIndex < 0 then
      -- the for loop with a negative start reads txWrappersWithGas[-1]
      -- (undefined); the status update dereferences undefined.title and the
      -- TypeError rethrown from inside the catch escapes the function
      { state := st, sent := [], simRequested := simReq
        thrown := some "TypeError: Cannot read properties of undefined" }
    else
      let r := eoaIter networkName outcomes (txWrappersWithGas.drop startIndex.toNat)
        startIndex.toNat st []
      { state := r.1, sent := r.2, simRequested := simReq, thrown := none }

/-- Error thrown when the Safe-path simulation fetch fails (part_000
line 327). -/
def safeGasFailMsg : String := "Unable to estimate gas for Safe Batch operation."

/-- Message of the failed wrapper-count assertion (part_000 line 330). -/
def safeAssertMsg : String := "Expected only one transaction in Safe mode."

/-- Result of handleSafeAppTransactions: final state, the backend's
opaque response when the send succeeded, whether the simulation request
was issued, the safeTxGas parameter of the send call if one was made
(inner none models NaN), and the error that escaped if one did. -/
structure SafeResult where
  state : CState
  response : Option String
  simRequested : Bool
  sentSafeTxGas : Option (Option Int)
  thrown : Option String
deriving DecidableEq, Repr

/-- handleSafeAppTransactions (part_000 lines 296-372).  The simulation
request is issued first, unconditionally; the single-wrapper assertion
only runs afterwards.  The destructured estimatedGas is read off the
response list itself, yielding undefined, so the buffered value is NaN.
On rejection the failing index is not recorded (only the failure branch
assigns failedTxIndex). -/
def handleSafeAppTransactions (transactionWrappers : List TransactionWrapper)
    (simFetch : Except String (List SimEntry))
    (sendOutcome : Except String String) (st : CState) : SafeResult :=
  match simFetch with
  | Except.error _ =>
    { state := st, response := none, simRequested := true, sentSafeTxGas := none
      thrown := some safeGasFailMsg }
  | Except.ok simulationRes =>
    let estimatedGasWithBuffer := jsGasBuffer (listEstimatedGasField simulationRes)
    match transactionWrappers with
    | [safeTx] =>
      match safeTx.transaction.toAddr, safeTx.transaction.data with
      | some _, some _ =>
        match sendOutcome with
        | Except.ok response =>
          { state :=
              { st with
                transactionsTimeline :=
                  updateTransactionTimelineStatus st.transactionsTimeline safeTx.title
                    ⟨TxStatus.submittedToSafe, "Transaction submitted to Safe", none⟩ }
            response := some response, simRequested := true
            sentSafeTxGas := some estimatedGasWithBuffer, thrown := none }
        | Except.error msg =>
          if isUserRejectionMsg msg then
            { state :=
                { st with
                  transactionsTimeline :=
                    updateTransactionTimelineStatus st.transactionsTimeline safeTx.title
                      ⟨TxStatus.rejected, "You rejected the transaction", none⟩ }
              response := none, simRequested := true
              sentSafeTxGas := some estimatedGasWithBuffer, thrown := none }
          else
            { state :=
                { st with
                  transactionsTimeline :=
                    updateTransactionTimelineStatus st.transactionsTimeline safeTx.title
                      ⟨TxStatus.failed, "Transaction failed", none⟩
                  error := some msg
                  failedTxIndex := 0 }
              response := none, simRequested := true
              sentSafeTxGas := some estimatedGasWithBuffer, thrown := none }
      | _, _ =>
        -- tx.to ?? unreachable() / tx.data ?? unreachable() throws
        { state := st, response := none, simRequested := true, sentSafeTxGas := none
          thrown := some "Unreachable code reached" }
    | _ =>
      { state := st, response := none, simRequested := true, sentSafeTxGas := none
        thrown := some safeAssertMsg }

/-- Statuses that make executeTransactions stop before finalizing
(part_000 lines 146-152). -/
def isBlockingStatus : TxStatus → Bool
  | TxStatus.failed => true
  | TxStatus.rejected => true
  | TxStatus.retrying => true
  | _ => false

/-- transactionsTimeline.some(tx => failed or rejected or retrying)
(part_000 lines 146-150). -/
def anyBlocking (timeline : List TimelineItem) : Bool :=
  timeline.any fun tx => isBlockingStatus tx.status

/-- The oracle environment of one execution attempt: the wallet snapshot,
the payload's hook results, and the outcomes of the external calls. -/
structure Env where
  address : Option String
  safeAppMode : Bool
  isTest : Bool
  networkName : String
  wrappers : List TransactionWrapper
  simFetch : Except String (List SimEntry)
  eoaOutcomes : Nat → TxOutcome
  safeSendOutcome : Except String String
  duringAfterMsg : Option String
  hasAfter : Bool
  afterOutcome : Except String Unit
  hasAfterSafe : Bool
  afterSafeOutcome : Except String Unit

/-- The outcome of running the optional after hook (after?.(...)). -/
def afterRun (env : Env) : Except String Unit :=
  if env.hasAfter then env.afterOutcome else Except.ok ()

/-- Result of one executeTransactions call: final component state, the
whole-flow failure results dispatched (dispatchResult with success
false), the traces of external calls, the value of isRetrying right
after the initial reset step, and the error that escaped the call if one
did.  State mutations made before a throw persist, as the component's
variables do. -/
structure ExecResult where
  state : CState
  dispatched : List String
  simRequested : Bool
  sentEoa : List (Nat × Option Int)
  sentSafeTxGas : Option (Option Int)
  safeResponse : Option String
  isRetryingAfterReset : Bool
  thrown : Option String
deriving DecidableEq, Repr

/-- The EOA finalizing block (part_000 lines 155-170): mark the item of
wrappers[timeline.length - 1] finalizing, run the after hook, then mark
it confirmed; if the hook throws, the confirmed update is skipped and a
whole-flow failure result is dispatched.  Returns the new state and the
dispatched results. -/
def finalizeEoa (env : Env) (transactionWrappers : List TransactionWrapper)
    (st : CState) : CState × List String :=
  match transactionWrappers[st.transactionsTimeline.length - 1]? with
  | none =>
    -- updateTransactionTimelineStatus(undefined, ...) throws inside the
    -- try, so the catch dispatches the TypeError as a failure result
    (st, ["TypeError: Cannot read properties of undefined"])
  | some lastW =>
    let t4 := updateTransactionTimelineStatus st.transactionsTimeline lastW.title
      ⟨TxStatus.finalizing,
        "Transaction confirmed. " ++ env.duringAfterMsg.getD "Wrapping up...", none⟩
    match afterRun env with
    | Except.ok _ =>
      let t5 := updateTransactionTimelineStatus t4 lastW.title
        ⟨TxStatus.confirmed, "Transaction confirmed", none⟩
      ({ st with transactionsTimeline := t5 }, [])
    | Except.error e => ({ st with transactionsTimeline := t4 }, [e])

/-- executeTransactions (part_000 lines 84-183). -/
def executeTransactions (env : Env) (st0 : CState) (retryIndex : Int) : ExecResult :=
  let st1 := if st0.failedTxIndex ≠ -1 then recalculateTimelineStatuses retryIndex st0 else st0
  -- resolving the payload assigns presentation fields only
  match env.address with
  | none =>
    -- assert(address) throws
    { state := st1, dispatched := [], simRequested := false, sentEoa := []
      sentSafeTxGas := none, safeResponse := none
      isRetryingAfterReset := st1.isRetrying, thrown := some "Assertion failed: address" }
  | some _addr =>
    -- before() and the 600ms minimum-delay timer have no observable
    -- effect on the state modelled here
    let transactionWrappers := env.wrappers
    let st2 :=
      if st1.transactionsTimeline.length = 0 then
        { st1 with
          transactionsTimeline :=
            initTransactionsTimelineItems transactionWrappers env.safeAppMode }
      else st1
    if env.safeAppMode then
      let r := handleSafeAppTransactions transactionWrappers env.simFetch
        env.safeSendOutcome st2
      match r.thrown with
      | some e =>
        { state := r.state, dispatched := [], simRequested := r.simRequested
          sentEoa := [], sentSafeTxGas := r.sentSafeTxGas, safeResponse := r.response
          isRetryingAfterReset := st1.isRetrying, thrown := some e }
      | none =>
        if anyBlocking r.state.transactionsTimeline then
          { state := r.state, dispatched := [], simRequested := r.simRequested
            sentEoa := [], sentSafeTxGas := r.sentSafeTxGas, safeResponse := r.response
            isRetryingAfterReset := st1.isRetrying, thrown := none }
        else if env.hasAfterSafe then
          match r.response with
          | none =>
            -- assert(safeSendTransactionResponse) throws outside any try
            { state := r.state, dispatched := [], simRequested := r.simRequested
              sentEoa := [], sentSafeTxGas := r.sentSafeTxGas, safeResponse := r.response
              isRetryingAfterReset := st1.isRetrying
              thrown := some "Expected SafeSendTransactionResponse to be defined." }
          | some _resp =>
            match env.afterSafeOutcome with
            | Except.ok _ =>
              { state := { r.state with isRetrying := false, isExecutionCompleted := true }
                dispatched := [], simRequested := r.simRequested, sentEoa := []
                sentSafeTxGas := r.sentSafeTxGas, safeResponse := r.response
                isRetryingAfterReset := st1.isRetrying, thrown := none }
            | Except.error e =>
              { state := { r.state with isRetrying := false, isExecutionCompleted := true }
                dispatched := [e], simRequested := r.simRequested, sentEoa := []
                sentSafeTxGas := r.sentSafeTxGas, safeResponse := r.response
                isRetryingAfterReset := st1.isRetrying, thrown := none }
        else
          { state := { r.state with isRetrying := false, isExecutionCompleted := true }
            dispatched := [], simRequested := r.simRequested, sentEoa := []
            sentSafeTxGas := r.sentSafeTxGas, safeResponse := r.response
            isRetryingAfterReset := st1.isRetrying, thrown := none }
    else
      let r := handleEoaTransactions env.isTest env.networkName transactionWrappers
        env.simFetch env.eoaOutcomes retryIndex st2
      match r.thrown with
      | some e =>
        { state := r.state, dispatched := [], simRequested := r.simRequested
          sentEoa := r.sent, sentSafeTxGas := none, safeResponse := none
          isRetryingAfterReset := st1.isRetrying, thrown := some e }
      | none =>
        if anyBlocking r.state.transactionsTimeline then
          { state := r.state, dispatched := [], simRequested := r.simRequested
            sentEoa := r.sent, sentSafeTxGas := none, safeResponse := none
            isRetryingAfterReset := st1.isRetrying, thrown := none }
        else
          let fin := finalizeEoa env transactionWrappers r.state
          { state := { fin.1 with isRetrying := false, isExecutionCompleted := true }
            dispatched := fin.2, simRequested := r.simRequested, sentEoa := r.sent
            sentSafeTxGas := none, safeResponse := none
            isRetryingAfterReset := st1.isRetrying, thrown := none }

/-- retryFailedTransaction (part_000 lines 402-405): set the isRetrying
guard, then re-enter executeTransactions at the stored failing index. -/
def retryFailedTransaction (env : Env) (st : CState) : ExecResult :=
  executeTransactions env { st with isRetrying := true } st.failedTxIndex

/-! Pointwise lemmas about the timeline operations. -/

theorem applyTimelineUpdate_title (τ : String) (u : TimelineUpdate) (item : TimelineItem) :
    (applyTimelineUpdate τ u item).title = item.title := by
  unfold applyTimelineUpdate
  split <;> rfl

theorem applyTimelineUpdate_of_ne (τ : String) (u : TimelineUpdate) {item : TimelineItem}
    (h : ¬ item.title = τ) : applyTimelineUpdate τ u item = item := by
  unfold applyTimelineUpdate
  exact if_neg h

theorem applyTimelineUpdate_of_eq (τ : String) (u : TimelineUpdate) {item : TimelineItem}
    (h : item.title = τ) :
    applyTimelineUpdate τ u item =
      { item with
        status := u.status
        message := u.message
        etherscanUrl := u.etherscanUrl.orElse fun _ => item.etherscanUrl } := by
  unfold applyTimelineUpdate
  exact if_pos h

theorem updateTTS_getElem (t : List TimelineItem) (τ : String) (u : TimelineUpdate) (p : Nat) :
    (updateTransactionTimelineStatus t τ u)[p]? = (t[p]?).map (applyTimelineUpdate τ u) :=
  List.getElem?_map _ _ _

theorem updateTTS_untouched (t : List TimelineItem) (τ : String) (u : TimelineUpdate)
    {p : Nat} {it : TimelineItem} (hp : t[p]? = some it) (h : ¬ it.title = τ) :
    (updateTransactionTimelineStatus t τ u)[p]? = some it := by
  rw [updateTTS_getElem, hp, Option.map_some', applyTimelineUpdate_of_ne τ u h]

theorem updateTTS_map_title (t : List TimelineItem) (τ : String) (u : TimelineUpdate) :
    (updateTransactionTimelineStatus t τ u).map TimelineItem.title =
      t.map TimelineItem.title := by
  unfold updateTransactionTimelineStatus
  rw [List.map_map]
  exact List.map_congr_left fun a _ => applyTimelineUpdate_title τ u a

theorem updateTTS_length (t : List TimelineItem) (τ : String) (u : TimelineUpdate) :
    (updateTransactionTimelineStatus t τ u).length = t.length :=
  List.length_map _ _

theorem init_getElem (ws : List TransactionWrapper) (isSafe : Bool) (p : Nat) :
    (initTransactionsTimelineItems ws isSafe)[p]? =
      (ws[p]?).map fun w => initItem isSafe (p, w) := by
  unfold initTransactionsTimelineItems
  rw [List.getElem?_map, List.getElem?_enum, Option.map_map]
  rfl

theorem init_length (ws : List TransactionWrapper) (isSafe : Bool) :
    (initTransactionsTimelineItems ws isSafe).length = ws.length := by
  unfold initTransactionsTimelineItems
  rw [List.length_map, List.enum_length]

theorem initItem_title (isSafe : Bool) (p : Nat) (w : TransactionWrapper) :
    (initItem isSafe (p, w)).title = w.title := rfl

theorem init_map_title (ws : List TransactionWrapper) (isSafe : Bool) :
    (initTransactionsTimelineItems ws isSafe).map TimelineItem.title =
      ws.map TransactionWrapper.title := by
  apply List.ext_getElem?
  intro p
  rw [List.getElem?_map, List.getElem?_map, init_getElem, Option.map_map]
  cases ws[p]? <;> rfl

theorem recalc_getElem (k : Int) (st : CState) (p : Nat) :
    (recalculateTimelineStatuses k st).transactionsTimeline[p]? =
      (st.transactionsTimeline[p]?).map fun it => recalcRemapItem k (p, it) := by
  unfold recalculateTimelineStatuses
  dsimp only
  rw [List.getElem?_map, List.getElem?_enum, Option.map_map]
  rfl

theorem recalcRemapItem_title (k : Int) (p : Nat) (it : TimelineItem) :
    (recalcRemapItem k (p, it)).title = it.title := by
  unfold recalcRemapItem
  dsimp only
  split
  · rfl
  · split <;> rfl

theorem recalcRemapItem_confirmed (k : Int) (p : Nat) {it : TimelineItem}
    (h : it.status = TxStatus.confirmed) : recalcRemapItem k (p, it) = it := by
  unfold recalcRemapItem
  exact if_pos h

theorem recalcRemapItem_at_retry (k : Int) (p : Nat) {it : TimelineItem}
    (hnc : ¬ it.status = TxStatus.confirmed) (hp : (p : Int) = k) :
    recalcRemapItem k (p, it) =
      { it with status := TxStatus.retrying, message := "Preparing to retry..." } := by
  unfold recalcRemapItem
  dsimp only
  rw [if_neg hnc, if_pos hp]

theorem recalcRemapItem_awaiting (k : Int) (p : Nat) {it : TimelineItem}
    (hnc : ¬ it.status = TxStatus.confirmed) (hp : ¬ (p : Int) = k) :
    recalcRemapItem k (p, it) =
      { it with
        status := TxStatus.awaitingPrevious
        message := "Waiting on previous transaction" } := by
  unfold recalcRemapItem
  dsimp only
  rw [if_neg hnc, if_neg hp]

theorem recalc_confirmed_fixed (k : Int) (st : CState) {p : Nat} {it : TimelineItem}
    (hp : st.transactionsTimeline[p]? = some it) (h : it.status = TxStatus.confirmed) :
    (recalculateTimelineStatuses k st).transactionsTimeline[p]? = some it := by
  rw [recalc_getElem, hp, Option.map_some', recalcRemapItem_confirmed k p h]

theorem recalc_map_title (k : Int) (st : CState) :
    (recalculateTimelineStatuses k st).transactionsTimeline.map TimelineItem.title =
      st.transactionsTimeline.map TimelineItem.title := by
  apply List.ext_getElem?
  intro p
  rw [List.getElem?_map, List.getElem?_map, recalc_getElem, Option.map_map]
  cases st.transactionsTimeline[p]? with
  | none => rfl
  | some it =>
    rw [Option.map_some', Option.map_some']
    exact congrArg some (recalcRemapItem_title k p it)

/-- The exact integer ceiling computed by getGasBuffer: Math.ceil of
gasLimit * 1.25. -/
theorem getGasBuffer_eq_ceil (g : Int) : getGasBuffer g = ⌈(g : ℚ) * (5 / 4)⌉ := by
  have hrw : getGasBuffer g = (5 * g + 3) / 4 := rfl
  have hq1 : (5 : Int) * g ≤ 4 * ((5 * g + 3) / 4) := by omega
  have hq2 : (4 : Int) * ((5 * g + 3) / 4) ≤ 5 * g + 3 := by omega
  have hq1' : (5 : ℚ) * g ≤ 4 * (((5 * g + 3) / 4 : Int) : ℚ) := by exact_mod_cast hq1
  have hq2' : (4 : ℚ) * (((5 * g + 3) / 4 : Int) : ℚ) ≤ 5 * g + 3 := by exact_mod_cast hq2
  rw [hrw]
  symm
  rw [Int.ceil_eq_iff]
  constructor
  · linarith
  · linarith

/-! Step equations and invariants of the EOA submission loop. -/

/-- The timeline after one fully successful loop iteration for wrapper w:
awaitingSignature, then pending with the submission link, then confirmed
with the receipt link. -/
def successStepTimeline (net : String) (w : TransactionWrapperWithGasLimit)
    (tx rc : String) (t : List TimelineItem) : List TimelineItem :=
  updateTransactionTimelineStatus
    (updateTransactionTimelineStatus
      (updateTransactionTimelineStatus t w.title
        ⟨TxStatus.awaitingSignature, "Waiting for you to confirm in your wallet", none⟩)
      w.title ⟨TxStatus.pending, "Waiting for confirmation", some (etherscanLink net tx)⟩)
    w.title ⟨TxStatus.confirmed, "Transaction confirmed", some (etherscanLink net rc)⟩

theorem eoaIter_cons_success (net : String) (o : Nat → TxOutcome)
    (w : TransactionWrapperWithGasLimit) (rest : List TransactionWrapperWithGasLimit)
    (i : Nat) (st : CState) (sent : List (Nat × Option Int)) {tx rc : String}
    (ho : o i = TxOutcome.success tx rc) :
    eoaIter net o (w :: rest) i st sent =
      eoaIter net o rest (i + 1)
        { st with transactionsTimeline := successStepTimeline net w tx rc st.transactionsTimeline }
        (sent ++ [(i, effectiveGasLimit w)]) := by
  simp only [eoaIter, ho]
  rfl

theorem eoaIter_cons_submitFail (net : String) (o : Nat → TxOutcome)
    (w : TransactionWrapperWithGasLimit) (rest : List TransactionWrapperWithGasLimit)
    (i : Nat) (st : CState) (sent : List (Nat × Option Int)) {msg : String}
    (ho : o i = TxOutcome.submitFail msg) :
    eoaIter net o (w :: rest) i st sent =
      (eoaCatch w i msg
        { st with
          transactionsTimeline :=
            updateTransactionTimelineStatus st.transactionsTimeline w.title
              ⟨TxStatus.awaitingSignature, "Waiting for you to confirm in your wallet", none⟩ },
        sent ++ [(i, effectiveGasLimit w)]) := by
  simp only [eoaIter, ho]

theorem eoaIter_cons_confirmFail (net : String) (o : Nat → TxOutcome)
    (w : TransactionWrapperWithGasLimit) (rest : List TransactionWrapperWithGasLimit)
    (i : Nat) (st : CState) (sent : List (Nat × Option Int)) {tx msg : String}
    (ho : o i = TxOutcome.confirmFail tx msg) :
    eoaIter net o (w :: rest) i st sent =
      (eoaCatch w i msg
        { st with
          transactionsTimeline :=
            updateTransactionTimelineStatus
              (updateTransactionTimelineStatus st.transactionsTimeline w.title
                ⟨TxStatus.awaitingSignature, "Waiting for you to confirm in your wallet", none⟩)
              w.title ⟨TxStatus.pending, "Waiting for confirmation", some (etherscanLink net tx)⟩ },
        sent ++ [(i, effectiveGasLimit w)]) := by
  simp only [eoaIter, ho]

theorem successStepTimeline_map_title (net : String) (w : TransactionWrapperWithGasLimit)
    (tx rc : String) (t : List TimelineItem) :
    (successStepTimeline net w tx rc t).map TimelineItem.title = t.map TimelineItem.title := by
  unfold successStepTimeline
  rw [updateTTS_map_title, updateTTS_map_title, updateTTS_map_title]

theorem successStep_pointwise_ne (net : String) (w : TransactionWrapperWithGasLimit)
    (tx rc : String) (t : List TimelineItem) {p : Nat} {it : TimelineItem}
    (hp : t[p]? = some it) (h : ¬ it.title = w.title) :
    (successStepTimeline net w tx rc t)[p]? = some it := by
  unfold successStepTimeline
  exact updateTTS_untouched _ _ _ (updateTTS_untouched _ _ _ (updateTTS_untouched _ _ _ hp h) h) h

theorem updateTTS_touched (t : List TimelineItem) (τ : String) (u : TimelineUpdate)
    {p : Nat} {it : TimelineItem} (hp : t[p]? = some it) (h : it.title = τ) :
    (updateTransactionTimelineStatus t τ u)[p]? =
      some { title := it.title, message := u.message
             etherscanUrl := u.etherscanUrl.orElse fun _ => it.etherscanUrl
             status := u.status } := by
  rw [updateTTS_getElem, hp, Option.map_some', applyTimelineUpdate_of_eq _ _ h]

theorem successStep_pointwise_eq (net : String) (w : TransactionWrapperWithGasLimit)
    (tx rc : String) (t : List TimelineItem) {p : Nat} {it : TimelineItem}
    (hp : t[p]? = some it) (h : it.title = w.title) :
    (successStepTimeline net w tx rc t)[p]? =
      some { title := it.title, message := "Transaction confirmed"
             etherscanUrl := some (etherscanLink net rc), status := TxStatus.confirmed } := by
  unfold successStepTimeline
  have h1 := updateTTS_touched t w.title
    ⟨TxStatus.awaitingSignature, "Waiting for you to confirm in your wallet", none⟩ hp h
  have h2 := updateTTS_touched _ w.title
    ⟨TxStatus.pending, "Waiting for confirmation", some (etherscanLink net tx)⟩ h1 h
  have h3 := updateTTS_touched _ w.title
    ⟨TxStatus.confirmed, "Transaction confirmed", some (etherscanLink net rc)⟩ h2 h
  exact h3

theorem eoaCatch_map_title (w : TransactionWrapperWithGasLimit) (i : Nat) (msg : String)
    (st : CState) :
    (eoaCatch w i msg st).transactionsTimeline.map TimelineItem.title =
      st.transactionsTimeline.map TimelineItem.title := by
  unfold eoaCatch
  split <;> exact updateTTS_map_title _ _ _

theorem eoaCatch_untouched (w : TransactionWrapperWithGasLimit) (i : Nat) (msg : String)
    (st : CState) {p : Nat} {it : TimelineItem}
    (hp : st.transactionsTimeline[p]? = some it) (h : ¬ it.title = w.title) :
    (eoaCatch w i msg st).transactionsTimeline[p]? = some it := by
  unfold eoaCatch
  split <;> exact updateTTS_untouched _ _ _ hp h

theorem eoaCatch_frame (w : TransactionWrapperWithGasLimit) (i : Nat) (msg : String)
    (st : CState) :
    (eoaCatch w i msg st).isRetrying = st.isRetrying ∧
    (eoaCatch w i msg st).isExecutionCompleted = st.isExecutionCompleted ∧
    (eoaCatch w i msg st).isErrorDetailsVisible = st.isErrorDetailsVisible := by
  unfold eoaCatch
  split <;> exact ⟨rfl, rfl, rfl⟩

theorem eoaCatch_blocking (w : TransactionWrapperWithGasLimit) (i : Nat) (msg : String)
    (st : CState)
    (hmem : w.title ∈ st.transactionsTimeline.map TimelineItem.title) :
    anyBlocking (eoaCatch w i msg st).transactionsTimeline = true := by
  obtain ⟨it, hit, htitle⟩ := List.mem_map.mp hmem
  unfold eoaCatch anyBlocking
  split
  all_goals {
    apply List.any_eq_true.mpr
    refine ⟨applyTimelineUpdate w.title _ it, List.mem_map_of_mem _ hit, ?_⟩
    rw [applyTimelineUpdate_of_eq _ _ htitle]
    rfl }

theorem eoaIter_frame (net : String) (o : Nat → TxOutcome)
    (l : List TransactionWrapperWithGasLimit) :
    ∀ (i : Nat) (st : CState) (sent : List (Nat × Option Int)),
      (eoaIter net o l i st sent).1.isRetrying = st.isRetrying ∧
      (eoaIter net o l i st sent).1.isExecutionCompleted = st.isExecutionCompleted ∧
      (eoaIter net o l i st sent).1.isErrorDetailsVisible = st.isErrorDetailsVisible ∧
      (eoaIter net o l i st sent).1.transactionsTimeline.map TimelineItem.title =
        st.transactionsTimeline.map TimelineItem.title := by
  induction l with
  | nil => exact fun i st sent => ⟨rfl, rfl, rfl, rfl⟩
  | cons w rest ih =>
    intro i st sent
    cases ho : o i with
    | success tx rc =>
      rw [eoaIter_cons_success net o w rest i st sent ho]
      obtain ⟨h1, h2, h3, h4⟩ := ih (i + 1)
        { st with transactionsTimeline := successStepTimeline net w tx rc st.transactionsTimeline }
        (sent ++ [(i, effectiveGasLimit w)])
      exact ⟨h1, h2, h3, h4.trans (successStepTimeline_map_title net w tx rc _)⟩
    | submitFail msg =>
      rw [eoaIter_cons_submitFail net o w rest i st sent ho]
      obtain ⟨h1, h2, h3⟩ := eoaCatch_frame w i msg _
      exact ⟨h1, h2, h3, (eoaCatch_map_title w i msg _).trans (updateTTS_map_title _ _ _)⟩
    | confirmFail tx msg =>
      rw [eoaIter_cons_confirmFail net o w rest i st sent ho]
      obtain ⟨h1, h2, h3⟩ := eoaCatch_frame w i msg _
      refine ⟨h1, h2, h3, (eoaCatch_map_title w i msg _).trans ?_⟩
      rw [updateTTS_map_title, updateTTS_map_title]

theorem eoaIter_untouched (net : String) (o : Nat → TxOutcome)
    (l : List TransactionWrapperWithGasLimit) :
    ∀ (i : Nat) (st : CState) (sent : List (Nat × Option Int)) (p : Nat) (it : TimelineItem),
      st.transactionsTimeline[p]? = some it →
      ¬ it.title ∈ l.map (fun w => w.title) →
      (eoaIter net o l i st sent).1.transactionsTimeline[p]? = some it := by
  induction l with
  | nil => exact fun i st sent p it hp _ => hp
  | cons w rest ih =>
    intro i st sent p it hp hnin
    have hne : ¬ it.title = w.title := fun h => hnin (by rw [List.map_cons]; exact h ▸ List.mem_cons_self _ _)
    have hnrest : ¬ it.title ∈ rest.map (fun w => w.title) := fun h =>
      hnin (by rw [List.map_cons]; exact List.mem_cons_of_mem _ h)
    cases ho : o i with
    | success tx rc =>
      rw [eoaIter_cons_success net o w rest i st sent ho]
      exact ih (i + 1) _ _ p it (successStep_pointwise_ne net w tx rc _ hp hne) hnrest
    | submitFail msg =>
      rw [eoaIter_cons_submitFail net o w rest i st sent ho]
      exact eoaCatch_untouched w i msg _ (updateTTS_untouched _ _ _ hp hne) hne
    | confirmFail tx msg =>
      rw [eoaIter_cons_confirmFail net o w rest i st sent ho]
      exact eoaCatch_untouched w i msg _
        (updateTTS_untouched _ _ _ (updateTTS_untouched _ _ _ hp hne) hne) hne

theorem eoaIter_sent_mem (net : String) (o : Nat → TxOutcome)
    (l : List TransactionWrapperWithGasLimit) :
    ∀ (i : Nat) (st : CState) (sent : List (Nat × Option Int)) (x : Nat × Option Int),
      x ∈ (eoaIter net o l i st sent).2 → x ∈ sent ∨ i ≤ x.1 := by
  induction l with
  | nil => exact fun i st sent x hx => Or.inl hx
  | cons w rest ih =>
    intro i st sent x hx
    cases ho : o i with
    | success tx rc =>
      rw [eoaIter_cons_success net o w rest i st sent ho] at hx
      rcases ih (i + 1) _ _ x hx with hmem | hge
      · rcases List.mem_append.mp hmem with hs | hone
        · exact Or.inl hs
        · right
          rw [List.mem_singleton.mp hone]
      · exact Or.inr (Nat.le_of_succ_le hge)
    | submitFail msg =>
      rw [eoaIter_cons_submitFail net o w rest i st sent ho] at hx
      rcases List.mem_append.mp hx with hs | hone
      · exact Or.inl hs
      · right
        rw [List.mem_singleton.mp hone]
    | confirmFail tx msg =>
      rw [eoaIter_cons_confirmFail net o w rest i st sent ho] at hx
      rcases List.mem_append.mp hx with hs | hone
      · exact Or.inl hs
      · right
        rw [List.mem_singleton.mp hone]

theorem eoaIter_success_run (net : String) (o : Nat → TxOutcome)
    (l : List TransactionWrapperWithGasLimit) :
    ∀ (i : Nat) (st : CState) (sent : List (Nat × Option Int)),
      (∀ j, j < l.length → (o (i + j)).isSuccessOutcome = true) →
      (eoaIter net o l i st sent).1.failedTxIndex = st.failedTxIndex ∧
      (eoaIter net o l i st sent).1.error = st.error ∧
      ∀ (p : Nat) (it : TimelineItem), st.transactionsTimeline[p]? = some it →
        it.title ∈ l.map (fun w => w.title) →
        ∃ it', (eoaIter net o l i st sent).1.transactionsTimeline[p]? = some it' ∧
          it'.title = it.title ∧ it'.status = TxStatus.confirmed := by
  induction l with
  | nil =>
    intro i st sent _
    refine ⟨rfl, rfl, fun p it _ hmem => absurd hmem ?_⟩
    simp
  | cons w rest ih =>
    intro i st sent hsucc
    have h0 : (o i).isSuccessOutcome = true := by
      have := hsucc 0 (by simp)
      rwa [Nat.add_zero] at this
    cases ho : o i with
    | submitFail msg => rw [ho] at h0; exact absurd h0 (by simp [TxOutcome.isSuccessOutcome])
    | confirmFail tx msg => rw [ho] at h0; exact absurd h0 (by simp [TxOutcome.isSuccessOutcome])
    | success tx rc =>
      rw [eoaIter_cons_success net o w rest i st sent ho]
      have hsucc' : ∀ j, j < rest.length → (o (i + 1 + j)).isSuccessOutcome = true := by
        intro j hj
        have := hsucc (j + 1) (by simpa using Nat.succ_lt_succ hj)
        rwa [show i + (j + 1) = i + 1 + j by omega] at this
      obtain ⟨hfi, herr, hpt⟩ := ih (i + 1)
        { st with transactionsTimeline := successStepTimeline net w tx rc st.transactionsTimeline }
        (sent ++ [(i, effectiveGasLimit w)]) hsucc'
      refine ⟨hfi, herr, ?_⟩
      intro p it hp hmem
      by_cases hw : it.title = w.title
      · have hstep := successStep_pointwise_eq net w tx rc st.transactionsTimeline hp hw
        by_cases hrest : it.title ∈ rest.map (fun w => w.title)
        · obtain ⟨it', h1, h2, h3⟩ := hpt p _ hstep (by exact hrest)
          exact ⟨it', h1, h2.trans rfl, h3⟩
        · refine ⟨_, eoaIter_untouched net o rest (i + 1) _ _ p _ hstep ?_, rfl, rfl⟩
          exact hrest
      · have hmem' : it.title ∈ rest.map (fun w => w.title) := by
          rcases List.mem_cons.mp (by rw [List.map_cons] at hmem; exact hmem) with h | h
          · exact absurd h hw
          · exact h
        have hstep := successStep_pointwise_ne net w tx rc st.transactionsTimeline hp hw
        exact hpt p it hstep hmem'

theorem eoaIter_no_blocking (net : String) (o : Nat → TxOutcome)
    (l : List TransactionWrapperWithGasLimit) :
    ∀ (i : Nat) (st : CState) (sent : List (Nat × Option Int)),
      (∀ w ∈ l, w.title ∈ st.transactionsTimeline.map TimelineItem.title) →
      anyBlocking (eoaIter net o l i st sent).1.transactionsTimeline = false →
      (eoaIter net o l i st sent).1.failedTxIndex = st.failedTxIndex ∧
      (eoaIter net o l i st sent).1.error = st.error ∧
      ∀ (p : Nat) (it : TimelineItem), st.transactionsTimeline[p]? = some it →
        it.title ∈ l.map (fun w => w.title) →
        ∃ it', (eoaIter net o l i st sent).1.transactionsTimeline[p]? = some it' ∧
          it'.title = it.title ∧ it'.status = TxStatus.confirmed := by
  induction l with
  | nil =>
    intro i st sent _ _
    refine ⟨rfl, rfl, fun p it _ hmem => absurd hmem ?_⟩
    simp
  | cons w rest ih =>
    intro i st sent hsub hb
    cases ho : o i with
    | submitFail msg =>
      rw [eoaIter_cons_submitFail net o w rest i st sent ho] at hb
      have hmem : w.title ∈
          ({ st with
            transactionsTimeline :=
              updateTransactionTimelineStatus st.transactionsTimeline w.title
                ⟨TxStatus.awaitingSignature, "Waiting for you to confirm in your wallet",
                  none⟩ } : CState).transactionsTimeline.map TimelineItem.title := by
        dsimp only
        rw [updateTTS_map_title]
        exact hsub w (List.mem_cons_self _ _)
      have := eoaCatch_blocking w i msg _ hmem
      rw [this] at hb
      cases hb
    | confirmFail tx msg =>
      rw [eoaIter_cons_confirmFail net o w rest i st sent ho] at hb
      have hmem : w.title ∈
          ({ st with
            transactionsTimeline :=
              updateTransactionTimelineStatus
                (updateTransactionTimelineStatus st.transactionsTimeline w.title
                  ⟨TxStatus.awaitingSignature, "Waiting for you to confirm in your wallet",
                    none⟩)
                w.title
                ⟨TxStatus.pending, "Waiting for confirmation",
                  some (etherscanLink net tx)⟩ } : CState).transactionsTimeline.map
            TimelineItem.title := by
        dsimp only
        rw [updateTTS_map_title, updateTTS_map_title]
        exact hsub w (List.mem_cons_self _ _)
      have := eoaCatch_blocking w i msg _ hmem
      rw [this] at hb
      cases hb
    | success tx rc =>
      rw [eoaIter_cons_success net o w rest i st sent ho] at hb ⊢
      have hsub' : ∀ w' ∈ rest, w'.title ∈
          ({ st with transactionsTimeline :=
              successStepTimeline net w tx rc st.transactionsTimeline } :
            CState).transactionsTimeline.map TimelineItem.title := by
        intro w' hw'
        dsimp only
        rw [successStepTimeline_map_title]
        exact hsub w' (List.mem_cons_of_mem _ hw')
      obtain ⟨hfi, herr, hpt⟩ := ih (i + 1)
        { st with transactionsTimeline := successStepTimeline net w tx rc st.transactionsTimeline }
        (sent ++ [(i, effectiveGasLimit w)]) hsub' hb
      refine ⟨hfi, herr, ?_⟩
      intro p it hp hmem
      by_cases hw : it.title = w.title
      · have hstep := successStep_pointwise_eq net w tx rc st.transactionsTimeline hp hw
        by_cases hrest : it.title ∈ rest.map (fun w => w.title)
        · obtain ⟨it', h1, h2, h3⟩ := hpt p _ hstep (by exact hrest)
          exact ⟨it', h1, h2.trans rfl, h3⟩
        · refine ⟨_, eoaIter_untouched net o rest (i + 1) _ _ p _ hstep ?_, rfl, rfl⟩
          exact hrest
      · have hmem' : it.title ∈ rest.map (fun w => w.title) := by
          rcases List.mem_cons.mp (by rw [List.map_cons] at hmem; exact hmem) with h | h
          · exact absurd h hw
          · exact h
        have hstep := successStep_pointwise_ne net w tx rc st.transactionsTimeline hp hw
        exact hpt p it hstep hmem'

/-! Lemmas about the gas-simulation phase. -/

theorem assignGas_ok (entries : List SimEntry) (i : Nat)
    {w w' : TransactionWrapperWithGasLimit}
    (h : assignGas entries i w = Except.ok w') :
    w'.toTransactionWrapper = w.toTransactionWrapper ∧
    (w.applyGasBuffer = false → w' = w) ∧
    (w.applyGasBuffer = true →
      ∃ g, (entries[i]?).bind SimEntry.estimatedGas = some g ∧ 0 < g ∧
        w'.gasLimit = some (getGasBuffer g)) := by
  unfold assignGas at h
  by_cases hf : w.applyGasBuffer = false
  · rw [if_pos hf] at h
    cases h
    exact ⟨rfl, fun _ => rfl, fun ht => absurd ht (by simp [hf])⟩
  · rw [if_neg hf] at h
    cases hg : (entries[i]?).bind SimEntry.estimatedGas with
    | none => rw [hg] at h; cases h
    | some g =>
      rw [hg] at h
      dsimp only at h
      by_cases hpos : 0 < g
      · rw [if_pos hpos] at h
        cases h
        exact ⟨rfl, fun hc => absurd hc hf, fun _ => ⟨g, rfl, hpos, rfl⟩⟩
      · rw [if_neg hpos] at h
        cases h

theorem assignGasLimits_spec (entries : List SimEntry) :
    ∀ (ws : List TransactionWrapperWithGasLimit) (i : Nat)
      (res : List TransactionWrapperWithGasLimit),
      assignGasLimits entries i ws = Except.ok res →
      res.length = ws.length ∧
      res.map (fun w => w.title) = ws.map (fun w => w.title) ∧
      ∀ (j : Nat) (w : TransactionWrapperWithGasLimit), ws[j]? = some w →
        ∃ w', res[j]? = some w' ∧
          w'.toTransactionWrapper = w.toTransactionWrapper ∧
          (w.applyGasBuffer = false → w' = w) ∧
          (w.applyGasBuffer = true →
            ∃ g, (entries[i + j]?).bind SimEntry.estimatedGas = some g ∧ 0 < g ∧
              w'.gasLimit = some (getGasBuffer g)) := by
  intro ws
  induction ws with
  | nil =>
    intro i res h
    unfold assignGasLimits at h
    cases h
    exact ⟨rfl, rfl, fun j w hj => by simp at hj⟩
  | cons w ws ih =>
    intro i res h
    unfold assignGasLimits at h
    cases ha : assignGas entries i w with
    | error e => rw [ha] at h; cases h
    | ok w1 =>
      rw [ha] at h
      cases hr : assignGasLimits entries (i + 1) ws with
      | error e => rw [hr] at h; cases h
      | ok res1 =>
        rw [hr] at h
        cases h
        obtain ⟨hlen, htitles, hpt⟩ := ih (i + 1) res1 hr
        obtain ⟨ht1, hf1, hg1⟩ := assignGas_ok entries i ha
        refine ⟨by simp [hlen], ?_, ?_⟩
        · rw [List.map_cons, List.map_cons, htitles]
          have : w1.title = w.title := congrArg TransactionWrapper.title ht1
          rw [this]
        · intro j wj hj
          cases j with
          | zero =>
            have hw : wj = w := by simpa using hj.symm
            subst hw
            refine ⟨w1, by simp, ht1, hf1, ?_⟩
            rw [Nat.add_zero]
            exact hg1
          | succ j =>
            have hj' : ws[j]? = some wj := by simpa using hj
            obtain ⟨w', hw', hrest⟩ := hpt j wj hj'
            refine ⟨w', by simpa using hw', ?_⟩
            rw [show i + (j + 1) = i + 1 + j by omega]
            exact hrest

theorem withUndefinedGas_getElem (ws : List TransactionWrapper) (j : Nat) :
    (withUndefinedGas ws)[j]? =
      (ws[j]?).map fun tx => (⟨tx, none⟩ : TransactionWrapperWithGasLimit) :=
  List.getElem?_map _ _ _

theorem withUndefinedGas_length (ws : List TransactionWrapper) :
    (withUndefinedGas ws).length = ws.length :=
  List.length_map _ _

theorem withUndefinedGas_map_title (ws : List TransactionWrapper) :
    (withUndefinedGas ws).map (fun w => w.title) = ws.map TransactionWrapper.title := by
  unfold withUndefinedGas
  rw [List.map_map]
  rfl

theorem mem_of_idx {α : Type} {l : List α} {n : Nat} {a : α} (h : l[n]? = some a) : a ∈ l := by
  obtain ⟨hlt, rfl⟩ := List.getElem?_eq_some.mp h
  exact List.getElem_mem hlt

theorem simulateAndAssign_ok (isTest : Bool) (ws : List TransactionWrapper)
    (simFetch : Except String (List SimEntry))
    {res : List TransactionWrapperWithGasLimit} {b : Bool}
    (h : simulateAndAssign isTest ws simFetch = (Except.ok res, b)) :
    res.length = ws.length ∧
    res.map (fun w => w.title) = ws.map TransactionWrapper.title ∧
    ∀ (j : Nat) (w : TransactionWrapper), ws[j]? = some w →
      ∃ w', res[j]? = some w' ∧ w'.toTransactionWrapper = w ∧
        (w.applyGasBuffer = false → w'.gasLimit = none) ∧
        (w.applyGasBuffer = true → isTest = false →
          ∃ entries, simFetch = Except.ok entries ∧
            ∃ g, (entries[j]?).bind SimEntry.estimatedGas = some g ∧ 0 < g ∧
              w'.gasLimit = some (getGasBuffer g)) := by
  unfold simulateAndAssign at h
  dsimp only at h
  by_cases hneed : (!isTest && (withUndefinedGas ws).any fun tx => tx.applyGasBuffer) = true
  · rw [if_pos hneed] at h
    cases hsf : simFetch with
    | error e =>
      rw [hsf] at h
      rw [Prod.mk.injEq] at h
      cases h.1
    | ok entries =>
      rw [hsf] at h
      rw [Prod.mk.injEq] at h
      obtain ⟨h1, _⟩ := h
      obtain ⟨hlen, htitles, hpt⟩ := assignGasLimits_spec entries (withUndefinedGas ws) 0 res h1
      refine ⟨hlen.trans (withUndefinedGas_length ws), htitles.trans (withUndefinedGas_map_title ws), ?_⟩
      intro j w hj
      have hj' : (withUndefinedGas ws)[j]? = some ⟨w, none⟩ := by
        rw [withUndefinedGas_getElem, hj, Option.map_some']
      obtain ⟨w', hw', ht, hfalse, htrue⟩ := hpt j ⟨w, none⟩ hj'
      refine ⟨w', hw', ht, ?_, ?_⟩
      · intro hfl
        rw [hfalse hfl]
      · intro hfl _
        obtain ⟨g, hg, hpos, hlim⟩ := htrue hfl
        rw [Nat.zero_add] at hg
        exact ⟨entries, rfl, g, hg, hpos, hlim⟩
  · rw [if_neg hneed] at h
    rw [Prod.mk.injEq] at h
    obtain ⟨h1, _⟩ := h
    have hres : res = withUndefinedGas ws := (Except.ok.injEq _ _).mp h1.symm
    subst hres
    refine ⟨withUndefinedGas_length ws, withUndefinedGas_map_title ws, ?_⟩
    intro j w hj
    refine ⟨⟨w, none⟩, ?_, rfl, fun _ => rfl, ?_⟩
    · rw [withUndefinedGas_getElem, hj, Option.map_some']
    · intro hfl htest
      exfalso
      apply hneed
      rw [htest]
      refine (Bool.and_eq_true _ _).mpr ⟨rfl, List.any_eq_true.mpr ?_⟩
      have hj' : (withUndefinedGas ws)[j]? = some ⟨w, none⟩ := by
        rw [withUndefinedGas_getElem, hj, Option.map_some']
      exact ⟨⟨w, none⟩, mem_of_idx hj', hfl⟩

/-! Branch equations for the orchestrator. -/

theorem executeTransactions_eoa (env : Env) (st0 : CState) (r : Int) (a : String)
    (haddr : env.address = some a) (hmode : env.safeAppMode = false) :
    executeTransactions env st0 r =
      (let st1 := if st0.failedTxIndex ≠ -1 then recalculateTimelineStatuses r st0 else st0
       let st2 := if st1.transactionsTimeline.length = 0
         then { st1 with
                transactionsTimeline := initTransactionsTimelineItems env.wrappers false }
         else st1
       let er := handleEoaTransactions env.isTest env.networkName env.wrappers env.simFetch
         env.eoaOutcomes r st2
       match er.thrown with
       | some e =>
         { state := er.state, dispatched := [], simRequested := er.simRequested
           sentEoa := er.sent, sentSafeTxGas := none, safeResponse := none
           isRetryingAfterReset := st1.isRetrying, thrown := some e }
       | none =>
         if anyBlocking er.state.transactionsTimeline then
           { state := er.state, dispatched := [], simRequested := er.simRequested
             sentEoa := er.sent, sentSafeTxGas := none, safeResponse := none
             isRetryingAfterReset := st1.isRetrying, thrown := none }
         else
           let fin := finalizeEoa env env.wrappers er.state
           { state := { fin.1 with isRetrying := false, isExecutionCompleted := true }
             dispatched := fin.2, simRequested := er.simRequested, sentEoa := er.sent
             sentSafeTxGas := none, safeResponse := none
             isRetryingAfterReset := st1.isRetrying, thrown := none }) := by
  unfold executeTransactions
  rw [haddr, hmode]
  rfl

theorem executeTransactions_safe (env : Env) (st0 : CState) (r : Int) (a : String)
    (haddr : env.address = some a) (hmode : env.safeAppMode = true) :
    executeTransactions env st0 r =
      (let st1 := if st0.failedTxIndex ≠ -1 then recalculateTimelineStatuses r st0 else st0
       let st2 := if st1.transactionsTimeline.length = 0
         then { st1 with
                transactionsTimeline := initTransactionsTimelineItems env.wrappers true }
         else st1
       let sr := handleSafeAppTransactions env.wrappers env.simFetch env.safeSendOutcome st2
       match sr.thrown with
       | some e =>
         { state := sr.state, dispatched := [], simRequested := sr.simRequested
           sentEoa := [], sentSafeTxGas := sr.sentSafeTxGas, safeResponse := sr.response
           isRetryingAfterReset := st1.isRetrying, thrown := some e }
       | none =>
         if anyBlocking sr.state.transactionsTimeline then
           { state := sr.state, dispatched := [], simRequested := sr.simRequested
             sentEoa := [], sentSafeTxGas := sr.sentSafeTxGas, safeResponse := sr.response
             isRetryingAfterReset := st1.isRetrying, thrown := none }
         else if env.hasAfterSafe then
           match sr.response with
           | none =>
             { state := sr.state, dispatched := [], simRequested := sr.simRequested
               sentEoa := [], sentSafeTxGas := sr.sentSafeTxGas, safeResponse := sr.response
               isRetryingAfterReset := st1.isRetrying
               thrown := some "Expected SafeSendTransactionResponse to be defined." }
           | some _resp =>
             match env.afterSafeOutcome with
             | Except.ok _ =>
               { state := { sr.state with isRetrying := false, isExecutionCompleted := true }
                 dispatched := [], simRequested := sr.simRequested, sentEoa := []
                 sentSafeTxGas := sr.sentSafeTxGas, safeResponse := sr.response
                 isRetryingAfterReset := st1.isRetrying, thrown := none }
             | Except.error e =>
               { state := { sr.state with isRetrying := false, isExecutionCompleted := true }
                 dispatched := [e], simRequested := sr.simRequested, sentEoa := []
                 sentSafeTxGas := sr.sentSafeTxGas, safeResponse := sr.response
                 isRetryingAfterReset := st1.isRetrying, thrown := none }
         else
           { state := { sr.state with isRetrying := false, isExecutionCompleted := true }
             dispatched := [], simRequested := sr.simRequested, sentEoa := []
             sentSafeTxGas := sr.sentSafeTxGas, safeResponse := sr.response
             isRetryingAfterReset := st1.isRetrying, thrown := none }) := by
  unfold executeTransactions
  rw [haddr, hmode]
  rfl

theorem handleEoa_simfail (isTest : Bool) (net : String) (ws : List TransactionWrapper)
    (simFetch : Except String (List SimEntry)) (o : Nat → TxOutcome) (r : Int) (st : CState)
    {msg : String} (hsim : (simulateAndAssign isTest ws simFetch).1 = Except.error msg) :
    handleEoaTransactions isTest net ws simFetch o r st =
      { state := st, sent := [], simRequested := (simulateAndAssign isTest ws simFetch).2
        thrown := some msg } := by
  unfold handleEoaTransactions
  have hpair : simulateAndAssign isTest ws simFetch =
      (Except.error msg, (simulateAndAssign isTest ws simFetch).2) := by
    rw [← hsim]
  rw [hpair]

theorem handleEoa_ok (isTest : Bool) (net : String) (ws : List TransactionWrapper)
    (simFetch : Except String (List SimEntry)) (o : Nat → TxOutcome) (r : Int) (st : CState)
    {res : List TransactionWrapperWithGasLimit}
    (hsim : (simulateAndAssign isTest ws simFetch).1 = Except.ok res) (hr : 0 ≤ r) :
    handleEoaTransactions isTest net ws simFetch o r st =
      { state := (eoaIter net o (res.drop r.toNat) r.toNat st []).1
        sent := (eoaIter net o (res.drop r.toNat) r.toNat st []).2
        simRequested := (simulateAndAssign isTest ws simFetch).2
        thrown := none } := by
  unfold handleEoaTransactions
  have hpair : simulateAndAssign isTest ws simFetch =
      (Except.ok res, (simulateAndAssign isTest ws simFetch).2) := by
    rw [← hsim]
  rw [hpair]
  dsimp only
  rw [if_neg (not_lt.mpr hr)]

/-! Concrete fixtures used by witnesses and counterexamples. -/

def wEx1 : TransactionWrapper := ⟨"a", ⟨some "0x1", some "0xd1", some 21000⟩, true⟩

def wEx2 : TransactionWrapper := ⟨"b", ⟨some "0x2", some "0xd2", none⟩, false⟩

def baseEnv : Env :=
  { address := some "0xme", safeAppMode := false, isTest := false, networkName := "mainnet"
    wrappers := [wEx1, wEx2]
    simFetch := Except.ok [⟨some 100⟩, ⟨some 200⟩]
    eoaOutcomes := fun _ => TxOutcome.success "0xh" "0xr"
    safeSendOutcome := Except.ok "safeResp"
    duringAfterMsg := none
    hasAfter := true, afterOutcome := Except.ok ()
    hasAfterSafe := false, afterSafeOutcome := Except.ok () }

def envSafeRejected : Env :=
  { baseEnv with
    safeAppMode := true
    wrappers := [wEx1]
    simFetch := Except.ok [⟨some 100⟩]
    safeSendOutcome := Except.error "User rejected transaction" }

def envSafeGas : Env :=
  { baseEnv with
    safeAppMode := true
    wrappers := [wEx1]
    simFetch := Except.ok [⟨some 100⟩] }

def envSafeTwo : Env := { baseEnv with safeAppMode := true }

def envSimFail : Env := { baseEnv with simFetch := Except.error "network down" }

def stFailedEx : CState :=
  { initialState with
    failedTxIndex := 1
    transactionsTimeline :=
      [⟨"a", "Transaction confirmed", some "etherscan/mainnet/0xr", TxStatus.confirmed⟩,
        ⟨"b", "You rejected the transaction", none, TxStatus.rejected⟩] }

/-- C10: the start-over (Back) action is enabled if and only if
failedTxIndex equals 0: it is disabled in the initial and no-failure
states (failedTxIndex = -1) and after a failure at any index at least 1,
because the disabling condition is the truthiness of failedTxIndex
rather than a comparison with -1. -/
theorem claim10_back_button :
    (∀ f : Int, backDisabled f = false ↔ f = 0) ∧
    backDisabled initialState.failedTxIndex = true ∧
    backDisabled 0 = false ∧
    backDisabled 1 = true ∧
    backDisabled 3 = true := by
  refine ⟨fun f => ?_, rfl, rfl, rfl, rfl⟩
  unfold backDisabled
  simp [bne_eq_false_iff_eq]

/-- C4: the claim that failedTxIndex is -1 iff no item is failed,
rejected or retrying — and that in multisig mode the failing index 0 is
recorded on both rejection and failure — is contradicted by the code: on
a multisig rejection the item becomes rejected but failedTxIndex is only
assigned in the non-rejection branch (part_000 lines 356-370), so it
stays -1.  The run below evaluates the code on that failing input. -/
theorem claim4_safe_rejection_failedTxIndex_bug :
    (executeTransactions envSafeRejected initialState 0).state.transactionsTimeline.map
        TimelineItem.status = [TxStatus.rejected] ∧
    (executeTransactions envSafeRejected initialState 0).state.failedTxIndex = -1 ∧
    anyBlocking
        (executeTransactions envSafeRejected initialState 0).state.transactionsTimeline =
      true ∧
    isUserRejectionMsg "User rejected transaction" = true := by
  refine ⟨rfl, rfl, rfl, rfl⟩

/-- C5: the claim that the multisig submit call receives
ceil(estimatedGas * 1.25) is contradicted by the code: the Safe path
destructures estimatedGas from the simulation response list itself
(part_000 line 307), which yields undefined, so the buffered value passed
as safeTxGas is NaN (modelled some none) instead of
some (getGasBuffer 100) = some 125.  The run below evaluates the code at
a single wrapper whose aligned simulation entry has estimatedGas 100. -/
theorem claim5_safe_gas_nan_bug :
    (executeTransactions envSafeGas initialState 0).sentSafeTxGas = some none ∧
    ¬ (executeTransactions envSafeGas initialState 0).sentSafeTxGas =
        some (some (getGasBuffer 100)) ∧
    getGasBuffer 100 = 125 ∧
    jsGasBuffer (listEstimatedGasField [⟨some 100⟩]) = none ∧
    (executeTransactions envSafeGas initialState 0).state.transactionsTimeline.map
        TimelineItem.status = [TxStatus.submittedToSafe] := by
  refine ⟨rfl, by decide, rfl, rfl, rfl⟩

/-- C9: the claim that the isRetrying guard stays true from the
invocation of retryFailedTransaction until its executeTransactions call
completes is contradicted by the code: recalculateTimelineStatuses,
executed as the first step of every retry entered at a failing index,
sets isRetrying back to false (part_000 line 376), re-enabling the Try
again button while the retry is still in flight.  isRetryingAfterReset
records the guard value right after that first step. -/
theorem claim9_retry_guard_bug :
    stFailedEx.failedTxIndex = 1 ∧
    ({ stFailedEx with isRetrying := true } : CState).isRetrying = true ∧
    (recalculateTimelineStatuses 1 { stFailedEx with isRetrying := true }).isRetrying = false ∧
    (retryFailedTransaction baseEnv stFailedEx).isRetryingAfterReset = false := by
  refine ⟨rfl, rfl, rfl, rfl⟩

/-- C3 counterexample: with two wrappers in multisig mode the attempt
does fail with the invariant assertion error, but the simulation request
has already been issued by then (the fetch at part_000 lines 307-328
precedes the assertion at line 330), refuting the claim that no
simulation request is made. -/
theorem claim3_counterexample :
    (executeTransactions envSafeTwo initialState 0).thrown = some safeAssertMsg ∧
    (executeTransactions envSafeTwo initialState 0).simRequested = true := by
  refine ⟨rfl, rfl⟩

theorem handleSafe_many (ws : List TransactionWrapper)
    (simFetch : Except String (List SimEntry)) (send : Except String String) (st : CState)
    (h : 1 < ws.length) :
    handleSafeAppTransactions ws simFetch send st =
      match simFetch with
      | Except.error _ =>
        { state := st, response := none, simRequested := true, sentSafeTxGas := none
          thrown := some safeGasFailMsg }
      | Except.ok _ =>
        { state := st, response := none, simRequested := true, sentSafeTxGas := none
          thrown := some safeAssertMsg } := by
  unfold handleSafeAppTransactions
  cases simFetch with
  | error e => rfl
  | ok entries =>
    dsimp only
    cases ws with
    | nil => simp at h
    | cons w1 tail =>
      cases tail with
      | nil => simp at h
      | cons w2 t2 => rfl

/-- C3 (amended): for every multisig-mode execution whose wrapper list
has more than one element, the attempt fails before any submission to
the multisig backend — with the invariant assertion error when the
simulation fetch succeeds, and with the gas-estimation error when it
fails — but the simulation request itself is issued before the
invariant check fires. -/
theorem claim3_multisig_invariant :
    ∀ (env : Env) (st0 : CState) (r : Int) (a : String),
      env.address = some a → env.safeAppMode = true → 1 < env.wrappers.length →
      ((executeTransactions env st0 r).thrown = some safeAssertMsg ∨
        (executeTransactions env st0 r).thrown = some safeGasFailMsg) ∧
      (executeTransactions env st0 r).sentSafeTxGas = none ∧
      (executeTransactions env st0 r).simRequested = true := by
  intro env st0 r a haddr hmode hlen
  rw [executeTransactions_safe env st0 r a haddr hmode]
  dsimp only
  rw [handleSafe_many env.wrappers env.simFetch env.safeSendOutcome _ hlen]
  cases env.simFetch with
  | error e => exact ⟨Or.inr rfl, rfl, rfl⟩
  | ok entries => exact ⟨Or.inl rfl, rfl, rfl⟩

/-- Closed instance of the amended C3 statement at a concrete
two-wrapper multisig environment. -/
theorem claim3_witness :
    ((executeTransactions envSafeTwo initialState 1).thrown = some safeAssertMsg ∨
      (executeTransactions envSafeTwo initialState 1).thrown = some safeGasFailMsg) ∧
    (executeTransactions envSafeTwo initialState 1).sentSafeTxGas = none ∧
    (executeTransactions envSafeTwo initialState 1).simRequested = true :=
  claim3_multisig_invariant envSafeTwo initialState 1 "0xme" rfl rfl (by decide)

/-- C8: for every EOA-path attempt (started from the initial component
state) in which the gas-simulation phase fails — the fetch fails or a
flagged wrapper's estimatedGas is missing, non-numeric or non-positive —
the whole attempt aborts with that error: the timeline still holds
exactly the freshly initialized items (so no item was moved to
awaitingSignature by the executor), no transaction is submitted,
failedTxIndex remains -1, no stored error and no dispatched result. -/
theorem claim8_simulation_failure_aborts :
    ∀ (env : Env) (a msg : String),
      env.address = some a → env.safeAppMode = false →
      (simulateAndAssign env.isTest env.wrappers env.simFetch).1 = Except.error msg →
      (executeTransactions env initialState 0).thrown = some msg ∧
      (executeTransactions env initialState 0).sentEoa = [] ∧
      (executeTransactions env initialState 0).state.failedTxIndex = -1 ∧
      (executeTransactions env initialState 0).state.transactionsTimeline =
        initTransactionsTimelineItems env.wrappers false ∧
      (executeTransactions env initialState 0).state.error = none ∧
      (executeTransactions env initialState 0).dispatched = [] ∧
      (executeTransactions env initialState 0).state.isExecutionCompleted = false := by
  intro env a msg haddr hmode hsim
  rw [executeTransactions_eoa env initialState 0 a haddr hmode]
  dsimp only
  rw [if_neg (show ¬(initialState.failedTxIndex ≠ -1) from fun h => h rfl)]
  rw [if_pos (show initialState.transactionsTimeline.length = 0 from rfl)]
  rw [handleEoa_simfail _ _ _ _ _ _ _ hsim]
  exact ⟨rfl, rfl, rfl, rfl, rfl, rfl, rfl⟩

/-- Closed instance of C8 at a concrete environment whose simulation
fetch fails. -/
theorem claim8_witness :
    (executeTransactions envSimFail initialState 0).thrown = some eoaGasFailMsg ∧
    (executeTransactions envSimFail initialState 0).sentEoa = [] ∧
    (executeTransactions envSimFail initialState 0).state.failedTxIndex = -1 ∧
    (executeTransactions envSimFail initialState 0).state.transactionsTimeline =
      initTransactionsTimelineItems envSimFail.wrappers false := by
  obtain ⟨h1, h2, h3, h4, _⟩ :=
    claim8_simulation_failure_aborts envSimFail "0xme" eoaGasFailMsg rfl rfl rfl
  exact ⟨h1, h2, h3, h4⟩

/-- C7: in the EOA path (outside test mode), for every wrapper flagged
applyGasBuffer the gas limit sent with the transaction equals
ceil(estimatedGas * 1.25) where estimatedGas is the aligned
simulation-response element for that wrapper (100 yields 125, 101 yields
127), and every wrapper not flagged keeps its caller-declared default
gas limit. -/
theorem claim7_gas_buffer :
    ∀ (ws : List TransactionWrapper) (entries : List SimEntry)
      (res : List TransactionWrapperWithGasLimit) (b : Bool),
      simulateAndAssign false ws (Except.ok entries) = (Except.ok res, b) →
      (∀ (j : Nat) (w : TransactionWrapper), ws[j]? = some w →
        ∃ w', res[j]? = some w' ∧
          (w.applyGasBuffer = true →
            ∃ g, (entries[j]?).bind SimEntry.estimatedGas = some g ∧ 0 < g ∧
              effectiveGasLimit w' = some ⌈(g : ℚ) * (5 / 4)⌉) ∧
          (w.applyGasBuffer = false → effectiveGasLimit w' = w.transaction.gasLimit)) ∧
      getGasBuffer 100 = 125 ∧ getGasBuffer 101 = 127 := by
  intro ws entries res b h
  obtain ⟨hlen, htitles, hpt⟩ := simulateAndAssign_ok false ws (Except.ok entries) h
  refine ⟨?_, rfl, rfl⟩
  intro j w hj
  obtain ⟨w', hw', ht, hnone, hflag⟩ := hpt j w hj
  refine ⟨w', hw', ?_, ?_⟩
  · intro hf
    obtain ⟨entries', heq, g, hg, hpos, hlim⟩ := hflag hf rfl
    have hent : entries' = entries := ((Except.ok.injEq _ _).mp heq.symm)
    subst hent
    refine ⟨g, hg, hpos, ?_⟩
    unfold effectiveGasLimit
    rw [hlim]
    show some (getGasBuffer g) = _
    rw [getGasBuffer_eq_ceil]
  · intro hf
    unfold effectiveGasLimit
    rw [hnone hf]
    show w'.transaction.gasLimit = w.transaction.gasLimit
    rw [show w'.transaction = w.transaction from congrArg TransactionWrapper.transaction ht]

/-- Closed instance of C7: wrapper a is flagged with estimatedGas 101
and is sent ceil(101 * 1.25) = 127; wrapper b is unflagged and keeps
its default. -/
theorem claim7_witness :
    (simulateAndAssign false [wEx1, wEx2] (Except.ok [⟨some 101⟩, ⟨some 7⟩])).1 =
      Except.ok [⟨wEx1, some 127⟩, ⟨wEx2, none⟩] ∧
    effectiveGasLimit ⟨wEx1, some 127⟩ = some ⌈(101 : ℚ) * (5 / 4)⌉ ∧
    effectiveGasLimit ⟨wEx2, none⟩ = wEx2.transaction.gasLimit ∧
    getGasBuffer 100 = 125 ∧ getGasBuffer 101 = 127 := by
  obtain ⟨hpt, h100, h101⟩ := claim7_gas_buffer [wEx1, wEx2] [⟨some 101⟩, ⟨some 7⟩]
    [⟨wEx1, some 127⟩, ⟨wEx2, none⟩] true rfl
  refine ⟨rfl, ?_, ?_, h100, h101⟩
  · obtain ⟨w', hw', hflag, _⟩ := hpt 0 wEx1 rfl
    have hw2 : (⟨wEx1, some 127⟩ : TransactionWrapperWithGasLimit) = w' :=
      Option.some.inj (hw' : some _ = some w')
    subst hw2
    obtain ⟨g, hg, hpos, heff⟩ := hflag rfl
    have hgv : (101 : Int) = g := Option.some.inj (hg : some 101 = some g)
    subst hgv
    exact heff
  · obtain ⟨w', hw', _, hplain⟩ := hpt 1 wEx2 rfl
    have hw2 : (⟨wEx2, none⟩ : TransactionWrapperWithGasLimit) = w' :=
      Option.some.inj (hw' : some _ = some w')
    subst hw2
    exact hplain rfl

/-! Helper lemmas for the all-success and completion arguments. -/

theorem updateTTS_inv (t : List TimelineItem) (τ : String) (u : TimelineUpdate)
    {p : Nat} {it : TimelineItem}
    (h : (updateTransactionTimelineStatus t τ u)[p]? = some it) :
    ∃ it0, t[p]? = some it0 ∧
      ((¬ it0.title = τ ∧ it = it0) ∨
        (it0.title = τ ∧ it.status = u.status ∧ it.title = it0.title)) := by
  rw [updateTTS_getElem] at h
  cases ht : t[p]? with
  | none => rw [ht] at h; cases h
  | some it0 =>
    rw [ht, Option.map_some'] at h
    have heq := Option.some.inj h
    refine ⟨it0, rfl, ?_⟩
    by_cases hτ : it0.title = τ
    · right
      rw [applyTimelineUpdate_of_eq _ _ hτ] at heq
      exact ⟨hτ, by rw [← heq], by rw [← heq]⟩
    · left
      rw [applyTimelineUpdate_of_ne _ _ hτ] at heq
      exact ⟨hτ, heq.symm⟩

theorem map_status_replicate (tl : List TimelineItem) (N : Nat) (hlen : tl.length = N)
    (h : ∀ (p : Nat) (it : TimelineItem), tl[p]? = some it → it.status = TxStatus.confirmed) :
    tl.map TimelineItem.status = List.replicate N TxStatus.confirmed := by
  apply List.eq_replicate_iff.mpr
  refine ⟨by rw [List.length_map, hlen], ?_⟩
  intro s hs
  obtain ⟨it, hit, hst⟩ := List.mem_map.mp hs
  obtain ⟨p, hp⟩ := List.mem_iff_getElem?.mp hit
  rw [← hst]
  exact h p it hp

theorem anyBlocking_false_of_confirmed (tl : List TimelineItem)
    (h : ∀ (p : Nat) (it : TimelineItem), tl[p]? = some it → it.status = TxStatus.confirmed) :
    anyBlocking tl = false := by
  apply List.any_eq_false.mpr
  intro it hit
  obtain ⟨p, hp⟩ := List.mem_iff_getElem?.mp hit
  rw [h p it hp]
  exact fun hc => by cases hc

theorem handleSafe_single_ok {w : TransactionWrapper} (entries : List SimEntry)
    (resp : String) (st : CState) {tA dA : String}
    (htA : w.transaction.toAddr = some tA) (hdA : w.transaction.data = some dA) :
    handleSafeAppTransactions [w] (Except.ok entries) (Except.ok resp) st =
      { state :=
          { st with
            transactionsTimeline :=
              updateTransactionTimelineStatus st.transactionsTimeline w.title
                ⟨TxStatus.submittedToSafe, "Transaction submitted to Safe", none⟩ }
        response := some resp, simRequested := true
        sentSafeTxGas := some none, thrown := none } := by
  unfold handleSafeAppTransactions
  dsimp only
  rw [htA, hdA]
  rfl

theorem execRun_eoa_all_success (env : Env) (res : List TransactionWrapperWithGasLimit)
    (b : Bool) (a : String)
    (haddr : env.address = some a)
    (hmode : env.safeAppMode = false)
    (hN : 0 < env.wrappers.length)
    (hsim : simulateAndAssign env.isTest env.wrappers env.simFetch = (Except.ok res, b))
    (hout : ∀ j, j < env.wrappers.length → (env.eoaOutcomes j).isSuccessOutcome = true)
    (hafter : afterRun env = Except.ok ()) :
    (executeTransactions env initialState 0).thrown = none ∧
    (executeTransactions env initialState 0).state.transactionsTimeline.map
        TimelineItem.status =
      List.replicate env.wrappers.length TxStatus.confirmed ∧
    (executeTransactions env initialState 0).state.transactionsTimeline.map
        TimelineItem.title = env.wrappers.map TransactionWrapper.title ∧
    (executeTransactions env initialState 0).state.isExecutionCompleted = true ∧
    (executeTransactions env initialState 0).dispatched = [] := by
  rw [executeTransactions_eoa env initialState 0 a haddr hmode]
  dsimp only
  rw [if_neg (show ¬(initialState.failedTxIndex ≠ -1) from fun h => h rfl)]
  rw [if_pos (show initialState.transactionsTimeline.length = 0 from rfl)]
  rw [handleEoa_ok env.isTest env.networkName env.wrappers env.simFetch env.eoaOutcomes 0 _
    (congrArg Prod.fst hsim) (le_refl 0)]
  rw [Int.toNat_zero, List.drop_zero]
  dsimp only
  set st2 : CState :=
    { initialState with
      transactionsTimeline := initTransactionsTimelineItems env.wrappers false } with hst2
  set E := eoaIter env.networkName env.eoaOutcomes res 0 st2 [] with hE
  obtain ⟨hlen, htitles, _⟩ := simulateAndAssign_ok env.isTest env.wrappers env.simFetch hsim
  have hsucc : ∀ j, j < res.length → (env.eoaOutcomes (0 + j)).isSuccessOutcome = true := by
    intro j hj
    rw [Nat.zero_add]
    exact hout j (by rw [← hlen]; exact hj)
  obtain ⟨hfi, herr, hpt⟩ := eoaIter_success_run env.networkName env.eoaOutcomes res 0 st2 [] hsucc
  have hframe := eoaIter_frame env.networkName env.eoaOutcomes res 0 st2 []
  have htitleE : E.1.transactionsTimeline.map TimelineItem.title =
      env.wrappers.map TransactionWrapper.title := by
    rw [hE]
    exact (hframe.2.2.2).trans (init_map_title env.wrappers false)
  have hlenE : E.1.transactionsTimeline.length = env.wrappers.length := by
    have := congrArg List.length htitleE
    rwa [List.length_map, List.length_map] at this
  have hst2len : st2.transactionsTimeline.length = env.wrappers.length :=
    init_length env.wrappers false
  have hallconf : ∀ (p : Nat) (it : TimelineItem),
      E.1.transactionsTimeline[p]? = some it → it.status = TxStatus.confirmed := by
    intro p it hp
    have hplt : p < st2.transactionsTimeline.length := by
      have h1 := (List.getElem?_eq_some.mp hp).1
      rw [hlenE] at h1
      rw [hst2len]
      exact h1
    obtain ⟨it0, hit0⟩ : ∃ it0, st2.transactionsTimeline[p]? = some it0 :=
      ⟨st2.transactionsTimeline[p], List.getElem?_eq_some.mpr ⟨hplt, rfl⟩⟩
    have hmem : it0.title ∈ res.map (fun w => w.title) := by
      rw [htitles, ← init_map_title env.wrappers false]
      exact List.mem_map_of_mem _ (mem_of_idx hit0)
    obtain ⟨it', hit', htt, hconf⟩ := hpt p it0 hit0 hmem
    have heq : it' = it := Option.some.inj ((hit'.symm.trans hp).symm).symm
    rw [← heq]
    exact hconf
  have hblock : anyBlocking E.1.transactionsTimeline = false :=
    anyBlocking_false_of_confirmed _ hallconf
  rw [if_neg (show ¬(anyBlocking E.1.transactionsTimeline = true) from fun hc => by
    rw [hblock] at hc; cases hc)]
  have hlastlt : E.1.transactionsTimeline.length - 1 < env.wrappers.length := by
    rw [hlenE]
    omega
  obtain ⟨lastW, hlastW⟩ :
      ∃ lw, env.wrappers[E.1.transactionsTimeline.length - 1]? = some lw :=
    ⟨env.wrappers[E.1.transactionsTimeline.length - 1],
      List.getElem?_eq_some.mpr ⟨hlastlt, rfl⟩⟩
  unfold finalizeEoa
  rw [hlastW, hafter]
  dsimp only
  refine ⟨rfl, ?_, ?_, rfl, rfl⟩
  · -- all statuses confirmed after the finalizing/confirmed epilogue
    apply map_status_replicate
    · rw [updateTTS_length, updateTTS_length]
      exact hlenE
    · intro p it hp5
      obtain ⟨it4, h4, hc4⟩ := updateTTS_inv _ _ _ hp5
      rcases hc4 with ⟨hne4, heq4⟩ | ⟨_, hst4, _⟩
      · obtain ⟨it0, h0, hc0⟩ := updateTTS_inv _ _ _ h4
        rcases hc0 with ⟨_, heq0⟩ | ⟨hτ0, _, htit0⟩
        · rw [heq4, heq0]
          exact hallconf p it0 h0
        · exact absurd (heq4 ▸ (htit0.trans hτ0)) hne4
      · exact hst4
  · rw [updateTTS_map_title, updateTTS_map_title]
    exact htitleE

theorem execRun_safe_single_success (env : Env) (w : TransactionWrapper)
    (entries : List SimEntry) (resp a tA dA : String)
    (haddr : env.address = some a)
    (hmode : env.safeAppMode = true)
    (hws : env.wrappers = [w])
    (hsf : env.simFetch = Except.ok entries)
    (hsend : env.safeSendOutcome = Except.ok resp)
    (htA : w.transaction.toAddr = some tA)
    (hdA : w.transaction.data = some dA)
    (hAS : env.hasAfterSafe = true → env.afterSafeOutcome = Except.ok ()) :
    (executeTransactions env initialState 0).thrown = none ∧
    (executeTransactions env initialState 0).state.transactionsTimeline.map
        TimelineItem.status = [TxStatus.submittedToSafe] ∧
    (executeTransactions env initialState 0).state.transactionsTimeline.map
        TimelineItem.title = [w.title] ∧
    (executeTransactions env initialState 0).state.isExecutionCompleted = true ∧
    (executeTransactions env initialState 0).dispatched = [] := by
  rw [executeTransactions_safe env initialState 0 a haddr hmode]
  dsimp only
  rw [if_neg (show ¬(initialState.failedTxIndex ≠ -1) from fun h => h rfl)]
  rw [if_pos (show initialState.transactionsTimeline.length = 0 from rfl)]
  rw [hws, hsf, hsend]
  rw [handleSafe_single_ok entries resp _ htA hdA]
  dsimp only
  have htl : updateTransactionTimelineStatus (initTransactionsTimelineItems [w] true) w.title
      ⟨TxStatus.submittedToSafe, "Transaction submitted to Safe", none⟩ =
      [{ title := w.title, message := "Transaction submitted to Safe", etherscanUrl := none
         status := TxStatus.submittedToSafe }] := by
    show [applyTimelineUpdate w.title _ (initItem true (0, w))] = _
    have htitle : (initItem true (0, w)).title = w.title := rfl
    rw [applyTimelineUpdate_of_eq _ _ htitle]
    rfl
  rw [htl]
  rw [if_neg (show ¬(anyBlocking
      [{ title := w.title, message := "Transaction submitted to Safe", etherscanUrl := none
         status := TxStatus.submittedToSafe }] = true) from fun hc => Bool.noConfusion hc)]
  cases henv : env.hasAfterSafe with
  | true =>
    rw [hAS henv]
    exact ⟨rfl, rfl, rfl, rfl, rfl⟩
  | false =>
    exact ⟨rfl, rfl, rfl, rfl, rfl⟩

/-- C1: for every batch of N >= 1 wrappers in which every submission,
confirmation and hook succeeds, executeTransactions leaves the timeline
with exactly N items, one per wrapper in wrapper order, all confirmed in
EOA mode; in multisig mode (where success requires the single-wrapper
invariant to hold) it leaves exactly one item, submittedToSafe. -/
theorem claim1_no_failure_timeline :
    (∀ (env : Env) (res : List TransactionWrapperWithGasLimit) (b : Bool) (a : String),
      env.address = some a →
      env.safeAppMode = false →
      0 < env.wrappers.length →
      simulateAndAssign env.isTest env.wrappers env.simFetch = (Except.ok res, b) →
      (∀ j, j < env.wrappers.length → (env.eoaOutcomes j).isSuccessOutcome = true) →
      afterRun env = Except.ok () →
      (executeTransactions env initialState 0).thrown = none ∧
      (executeTransactions env initialState 0).state.transactionsTimeline.map
          TimelineItem.status =
        List.replicate env.wrappers.length TxStatus.confirmed ∧
      (executeTransactions env initialState 0).state.transactionsTimeline.map
          TimelineItem.title = env.wrappers.map TransactionWrapper.title) ∧
    (∀ (env : Env) (w : TransactionWrapper) (entries : List SimEntry) (resp a tA dA : String),
      env.address = some a →
      env.safeAppMode = true →
      env.wrappers = [w] →
      env.simFetch = Except.ok entries →
      env.safeSendOutcome = Except.ok resp →
      w.transaction.toAddr = some tA →
      w.transaction.data = some dA →
      (env.hasAfterSafe = true → env.afterSafeOutcome = Except.ok ()) →
      (executeTransactions env initialState 0).thrown = none ∧
      (executeTransactions env initialState 0).state.transactionsTimeline.map
          TimelineItem.status = [TxStatus.submittedToSafe] ∧
      (executeTransactions env initialState 0).state.transactionsTimeline.map
          TimelineItem.title = [w.title]) := by
  constructor
  · intro env res b a haddr hmode hN hsim hout hafter
    obtain ⟨h1, h2, h3, _, _⟩ :=
      execRun_eoa_all_success env res b a haddr hmode hN hsim hout hafter
    exact ⟨h1, h2, h3⟩
  · intro env w entries resp a tA dA haddr hmode hws hsf hsend htA hdA hAS
    obtain ⟨h1, h2, h3, _, _⟩ :=
      execRun_safe_single_success env w entries resp a tA dA haddr hmode hws hsf hsend htA
        hdA hAS
    exact ⟨h1, h2, h3⟩

/-- Closed instance of C1: a two-wrapper EOA batch with all successes
ends [confirmed, confirmed] in wrapper order, and a one-wrapper multisig
batch whose submission succeeds ends [submittedToSafe]. -/
theorem claim1_witness :
    (executeTransactions baseEnv initialState 0).state.transactionsTimeline.map
        TimelineItem.status = List.replicate baseEnv.wrappers.length TxStatus.confirmed ∧
    (executeTransactions baseEnv initialState 0).state.transactionsTimeline.map
        TimelineItem.title = baseEnv.wrappers.map TransactionWrapper.title ∧
    (executeTransactions envSafeGas initialState 0).state.transactionsTimeline.map
        TimelineItem.status = [TxStatus.submittedToSafe] := by
  obtain ⟨_, h2, h3⟩ := claim1_no_failure_timeline.1 baseEnv
    [⟨wEx1, some 125⟩, ⟨wEx2, none⟩] true "0xme" rfl rfl (by decide) rfl
    (fun j _ => rfl) rfl
  obtain ⟨_, h5, _⟩ := claim1_no_failure_timeline.2 envSafeGas wEx1 [⟨some 100⟩]
    "safeResp" "0xme" "0x1" "0xd1" rfl rfl rfl rfl rfl rfl rfl (fun _ => rfl)
  exact ⟨h2, h3, h5⟩

/-! Frame and branch lemmas used for the completion-flag analysis. -/

theorem handleEoa_state_frame (isTest : Bool) (net : String) (ws : List TransactionWrapper)
    (simFetch : Except String (List SimEntry)) (o : Nat → TxOutcome) (r : Int) (st : CState) :
    (handleEoaTransactions isTest net ws simFetch o r st).state.isExecutionCompleted =
      st.isExecutionCompleted := by
  unfold handleEoaTransactions
  cases hs : simulateAndAssign isTest ws simFetch with
  | mk e b =>
    cases e with
    | error e => rfl
    | ok res =>
      dsimp only
      by_cases hr : r < 0
      · rw [if_pos hr]
      · rw [if_neg hr]
        exact (eoaIter_frame net o (res.drop r.toNat) r.toNat st []).2.1

theorem handleSafe_state_frame (ws : List TransactionWrapper)
    (simFetch : Except String (List SimEntry)) (send : Except String String) (st : CState) :
    (handleSafeAppTransactions ws simFetch send st).state.isExecutionCompleted =
      st.isExecutionCompleted := by
  unfold handleSafeAppTransactions
  repeat' split
  all_goals rfl

theorem anyBlocking_updateTTS (t : List TimelineItem) (τ : String) (u : TimelineUpdate)
    (h : anyBlocking t = false) (hu : isBlockingStatus u.status = false) :
    anyBlocking (updateTransactionTimelineStatus t τ u) = false := by
  apply List.any_eq_false.mpr
  intro it hit
  obtain ⟨it0, hit0, heq⟩ := List.mem_map.mp hit
  intro hc
  rw [← heq] at hc
  by_cases hτ : it0.title = τ
  · rw [applyTimelineUpdate_of_eq _ _ hτ] at hc
    exact Bool.noConfusion (hu.symm.trans hc)
  · rw [applyTimelineUpdate_of_ne _ _ hτ] at hc
    exact (List.any_eq_false.mp h) it0 hit0 hc

theorem handleSafe_fetchfail (ws : List TransactionWrapper) (e : String)
    (send : Except String String) (st : CState) :
    handleSafeAppTransactions ws (Except.error e) send st =
      { state := st, response := none, simRequested := true, sentSafeTxGas := none
        thrown := some safeGasFailMsg } := rfl

theorem handleSafe_nil (entries : List SimEntry) (send : Except String String) (st : CState) :
    handleSafeAppTransactions [] (Except.ok entries) send st =
      { state := st, response := none, simRequested := true, sentSafeTxGas := none
        thrown := some safeAssertMsg } := rfl

theorem handleSafe_noTo {w : TransactionWrapper} (entries : List SimEntry)
    (send : Except String String) (st : CState) (htA : w.transaction.toAddr = none) :
    handleSafeAppTransactions [w] (Except.ok entries) send st =
      { state := st, response := none, simRequested := true, sentSafeTxGas := none
        thrown := some "Unreachable code reached" } := by
  unfold handleSafeAppTransactions
  dsimp only
  rw [htA]

theorem handleSafe_noData {w : TransactionWrapper} (entries : List SimEntry)
    (send : Except String String) (st : CState) {tA : String}
    (htA : w.transaction.toAddr = some tA) (hdA : w.transaction.data = none) :
    handleSafeAppTransactions [w] (Except.ok entries) send st =
      { state := st, response := none, simRequested := true, sentSafeTxGas := none
        thrown := some "Unreachable code reached" } := by
  unfold handleSafeAppTransactions
  dsimp only
  rw [htA, hdA]

theorem handleSafe_single_rejected {w : TransactionWrapper} (entries : List SimEntry)
    (msg : String) (st : CState) {tA dA : String}
    (htA : w.transaction.toAddr = some tA) (hdA : w.transaction.data = some dA)
    (hrej : isUserRejectionMsg msg = true) :
    handleSafeAppTransactions [w] (Except.ok entries) (Except.error msg) st =
      { state :=
          { st with
            transactionsTimeline :=
              updateTransactionTimelineStatus st.transactionsTimeline w.title
                ⟨TxStatus.rejected, "You rejected the transaction", none⟩ }
        response := none, simRequested := true, sentSafeTxGas := some none
        thrown := none } := by
  unfold handleSafeAppTransactions
  dsimp only
  rw [htA, hdA]
  dsimp only
  rw [if_pos hrej]
  rfl

theorem handleSafe_single_failed {w : TransactionWrapper} (entries : List SimEntry)
    (msg : String) (st : CState) {tA dA : String}
    (htA : w.transaction.toAddr = some tA) (hdA : w.transaction.data = some dA)
    (hrej : isUserRejectionMsg msg = false) :
    handleSafeAppTransactions [w] (Except.ok entries) (Except.error msg) st =
      { state :=
          { st with
            transactionsTimeline :=
              updateTransactionTimelineStatus st.transactionsTimeline w.title
                ⟨TxStatus.failed, "Transaction failed", none⟩
            error := some msg
            failedTxIndex := 0 }
        response := none, simRequested := true, sentSafeTxGas := some none
        thrown := none } := by
  unfold handleSafeAppTransactions
  dsimp only
  rw [htA, hdA]
  dsimp only
  rw [if_neg (show ¬(isUserRejectionMsg msg = true) from fun hc => by
    rw [hrej] at hc; cases hc)]
  rfl

theorem epilogue_all_confirmed (tl : List TimelineItem) (τ : String) (u1 u2 : TimelineUpdate)
    (hu2 : u2.status = TxStatus.confirmed)
    (hall : ∀ (p : Nat) (it : TimelineItem), tl[p]? = some it →
      it.status = TxStatus.confirmed) :
    ∀ (p : Nat) (it : TimelineItem),
      (updateTransactionTimelineStatus (updateTransactionTimelineStatus tl τ u1) τ
        u2)[p]? = some it → it.status = TxStatus.confirmed := by
  intro p it hp5
  obtain ⟨it4, h4, hc4⟩ := updateTTS_inv _ _ _ hp5
  rcases hc4 with ⟨hne4, heq4⟩ | ⟨_, hst4, _⟩
  · obtain ⟨it0, h0, hc0⟩ := updateTTS_inv _ _ _ h4
    rcases hc0 with ⟨_, heq0⟩ | ⟨hτ0, _, htit0⟩
    · rw [heq4, heq0]
      exact hall p it0 h0
    · exact absurd (heq4 ▸ (htit0.trans hτ0)) hne4
  · rw [hst4, hu2]

theorem execRun_safe_single_shape (env : Env) (w : TransactionWrapper)
    (entries : List SimEntry) (resp a tA dA : String)
    (haddr : env.address = some a)
    (hmode : env.safeAppMode = true)
    (hws : env.wrappers = [w])
    (hsf : env.simFetch = Except.ok entries)
    (hsend : env.safeSendOutcome = Except.ok resp)
    (htA : w.transaction.toAddr = some tA)
    (hdA : w.transaction.data = some dA) :
    executeTransactions env initialState 0 =
      { state :=
          { isRetrying := false, failedTxIndex := -1, isExecutionCompleted := true
            isErrorDetailsVisible := false, error := none
            transactionsTimeline :=
              [⟨w.title, "Transaction submitted to Safe", none, TxStatus.submittedToSafe⟩] }
        dispatched :=
          if env.hasAfterSafe then
            match env.afterSafeOutcome with
            | Except.ok _ => []
            | Except.error e => [e]
          else []
        simRequested := true, sentEoa := [], sentSafeTxGas := some none
        safeResponse := some resp, isRetryingAfterReset := false, thrown := none } := by
  rw [executeTransactions_safe env initialState 0 a haddr hmode]
  dsimp only
  rw [if_neg (show ¬(initialState.failedTxIndex ≠ -1) from fun h => h rfl)]
  rw [if_pos (show initialState.transactionsTimeline.length = 0 from rfl)]
  rw [hws, hsf, hsend]
  rw [handleSafe_single_ok entries resp _ htA hdA]
  dsimp only
  have htl : updateTransactionTimelineStatus (initTransactionsTimelineItems [w] true) w.title
      ⟨TxStatus.submittedToSafe, "Transaction submitted to Safe", none⟩ =
      [{ title := w.title, message := "Transaction submitted to Safe", etherscanUrl := none
         status := TxStatus.submittedToSafe }] := by
    show [applyTimelineUpdate w.title _ (initItem true (0, w))] = _
    have htitle : (initItem true (0, w)).title = w.title := rfl
    rw [applyTimelineUpdate_of_eq _ _ htitle]
    rfl
  rw [htl]
  rw [if_neg (show ¬(anyBlocking
      [{ title := w.title, message := "Transaction submitted to Safe", etherscanUrl := none
         status := TxStatus.submittedToSafe }] = true) from fun hc => Bool.noConfusion hc)]
  cases henv : env.hasAfterSafe with
  | true =>
    cases haso : env.afterSafeOutcome with
    | ok u => rfl
    | error m => rfl
  | false => rfl

theorem execRun_eoa_simfail_shape (env : Env) (a msg : String)
    (haddr : env.address = some a) (hmode : env.safeAppMode = false)
    (hsim1 : (simulateAndAssign env.isTest env.wrappers env.simFetch).1 = Except.error msg) :
    executeTransactions env initialState 0 =
      { state :=
          { initialState with
            transactionsTimeline := initTransactionsTimelineItems env.wrappers false }
        dispatched := []
        simRequested := (simulateAndAssign env.isTest env.wrappers env.simFetch).2
        sentEoa := [], sentSafeTxGas := none, safeResponse := none
        isRetryingAfterReset := false, thrown := some msg } := by
  rw [executeTransactions_eoa env initialState 0 a haddr hmode]
  dsimp only
  rw [if_neg (show ¬(initialState.failedTxIndex ≠ -1) from fun h => h rfl)]
  rw [if_pos (show initialState.transactionsTimeline.length = 0 from rfl)]
  rw [handleEoa_simfail _ _ _ _ _ _ _ hsim1]
  rfl

theorem execRun_eoa_ok_shape (env : Env) (res : List TransactionWrapperWithGasLimit)
    (a : String)
    (haddr : env.address = some a) (hmode : env.safeAppMode = false)
    (hsim1 : (simulateAndAssign env.isTest env.wrappers env.simFetch).1 = Except.ok res) :
    executeTransactions env initialState 0 =
      (let st2 : CState :=
        { initialState with
          transactionsTimeline := initTransactionsTimelineItems env.wrappers false }
       let E := eoaIter env.networkName env.eoaOutcomes res 0 st2 []
       if anyBlocking E.1.transactionsTimeline then
         { state := E.1, dispatched := []
           simRequested := (simulateAndAssign env.isTest env.wrappers env.simFetch).2
           sentEoa := E.2, sentSafeTxGas := none, safeResponse := none
           isRetryingAfterReset := false, thrown := none }
       else
         let fin := finalizeEoa env env.wrappers E.1
         { state := { fin.1 with isRetrying := false, isExecutionCompleted := true }
           dispatched := fin.2
           simRequested := (simulateAndAssign env.isTest env.wrappers env.simFetch).2
           sentEoa := E.2, sentSafeTxGas := none, safeResponse := none
           isRetryingAfterReset := false, thrown := none }) := by
  rw [executeTransactions_eoa env initialState 0 a haddr hmode]
  dsimp only
  rw [if_neg (show ¬(initialState.failedTxIndex ≠ -1) from fun h => h rfl)]
  rw [if_pos (show initialState.transactionsTimeline.length = 0 from rfl)]
  rw [handleEoa_ok env.isTest env.networkName env.wrappers env.simFetch env.eoaOutcomes 0 _
    hsim1 (le_refl 0)]
  rw [Int.toNat_zero, List.drop_zero]
  rfl

theorem execRun_eoa_shape (env : Env) (a : String)
    (haddr : env.address = some a) (hmode : env.safeAppMode = false) :
    executeTransactions env initialState 0 =
      (let st2 : CState :=
        { initialState with
          transactionsTimeline := initTransactionsTimelineItems env.wrappers false }
       let er := handleEoaTransactions env.isTest env.networkName env.wrappers env.simFetch
         env.eoaOutcomes 0 st2
       match er.thrown with
       | some e =>
         { state := er.state, dispatched := [], simRequested := er.simRequested
           sentEoa := er.sent, sentSafeTxGas := none, safeResponse := none
           isRetryingAfterReset := false, thrown := some e }
       | none =>
         if anyBlocking er.state.transactionsTimeline then
           { state := er.state, dispatched := [], simRequested := er.simRequested
             sentEoa := er.sent, sentSafeTxGas := none, safeResponse := none
             isRetryingAfterReset := false, thrown := none }
         else
           let fin := finalizeEoa env env.wrappers er.state
           { state := { fin.1 with isRetrying := false, isExecutionCompleted := true }
             dispatched := fin.2, simRequested := er.simRequested, sentEoa := er.sent
             sentSafeTxGas := none, safeResponse := none
             isRetryingAfterReset := false, thrown := none }) := by
  rw [executeTransactions_eoa env initialState 0 a haddr hmode]
  dsimp only
  rw [if_neg (show ¬(initialState.failedTxIndex ≠ -1) from fun h => h rfl)]
  rw [if_pos (show initialState.transactionsTimeline.length = 0 from rfl)]
  rfl

theorem execRun_safe_shape (env : Env) (a : String)
    (haddr : env.address = some a) (hmode : env.safeAppMode = true) :
    executeTransactions env initialState 0 =
      (let st2 : CState :=
        { initialState with
          transactionsTimeline := initTransactionsTimelineItems env.wrappers true }
       let sr := handleSafeAppTransactions env.wrappers env.simFetch env.safeSendOutcome st2
       match sr.thrown with
       | some e =>
         { state := sr.state, dispatched := [], simRequested := sr.simRequested
           sentEoa := [], sentSafeTxGas := sr.sentSafeTxGas, safeResponse := sr.response
           isRetryingAfterReset := false, thrown := some e }
       | none =>
         if anyBlocking sr.state.transactionsTimeline then
           { state := sr.state, dispatched := [], simRequested := sr.simRequested
             sentEoa := [], sentSafeTxGas := sr.sentSafeTxGas, safeResponse := sr.response
             isRetryingAfterReset := false, thrown := none }
         else if env.hasAfterSafe then
           match sr.response with
           | none =>
             { state := sr.state, dispatched := [], simRequested := sr.simRequested
               sentEoa := [], sentSafeTxGas := sr.sentSafeTxGas, safeResponse := sr.response
               isRetryingAfterReset := false
               thrown := some "Expected SafeSendTransactionResponse to be defined." }
           | some _resp =>
             match env.afterSafeOutcome with
             | Except.ok _ =>
               { state := { sr.state with isRetrying := false, isExecutionCompleted := true }
                 dispatched := [], simRequested := sr.simRequested, sentEoa := []
                 sentSafeTxGas := sr.sentSafeTxGas, safeResponse := sr.response
                 isRetryingAfterReset := false, thrown := none }
             | Except.error e =>
               { state := { sr.state with isRetrying := false, isExecutionCompleted := true }
                 dispatched := [e], simRequested := sr.simRequested, sentEoa := []
                 sentSafeTxGas := sr.sentSafeTxGas, safeResponse := sr.response
                 isRetryingAfterReset := false, thrown := none }
         else
           { state := { sr.state with isRetrying := false, isExecutionCompleted := true }
             dispatched := [], simRequested := sr.simRequested, sentEoa := []
             sentSafeTxGas := sr.sentSafeTxGas, safeResponse := sr.response
             isRetryingAfterReset := false, thrown := none }) := by
  rw [executeTransactions_safe env initialState 0 a haddr hmode]
  dsimp only
  rw [if_neg (show ¬(initialState.failedTxIndex ≠ -1) from fun h => h rfl)]
  rw [if_pos (show initialState.transactionsTimeline.length = 0 from rfl)]
  rfl

def envAfterFail : Env :=
  { baseEnv with
    wrappers := [wEx1]
    simFetch := Except.ok [⟨some 100⟩]
    afterOutcome := Except.error "after hook failed" }

/-- C6 counterexample: when the after hook throws, the code dispatches a
whole-flow failure result but still sets isExecutionCompleted, although
the last item is left 'finalizing' rather than 'confirmed' (part_000
lines 168-182 run the flag assignments after the catch), refuting that
the completion flag is set only when every item is confirmed. -/
theorem claim6_counterexample :
    (executeTransactions envAfterFail initialState 0).state.isExecutionCompleted = true ∧
    (executeTransactions envAfterFail initialState 0).state.transactionsTimeline.map
        TimelineItem.status = [TxStatus.finalizing] ∧
    (executeTransactions envAfterFail initialState 0).dispatched = ["after hook failed"] := by
  refine ⟨rfl, rfl, rfl⟩

/-- C6 (amended): from the initial state, (i) when executeTransactions
finishes with no escaped error, no dispatched failure result and the
completion flag set, every item is confirmed (EOA) resp. the single item
is submittedToSafe (multisig); (ii) when some item is failed, rejected
or retrying, the completion flag is not set, so the continue action
stays disabled; (iii) a failure thrown inside the after hook is
dispatched as a whole-flow failure result, distinct from a
per-transaction timeline failure — failedTxIndex stays -1 and no stored
error — though the completion flag is still set; (iv) likewise for the
afterSafe hook, with the single item left submittedToSafe. -/
theorem claim6_completion_amended :
    (∀ (env : Env) (a : String),
      env.address = some a →
      (executeTransactions env initialState 0).thrown = none →
      (executeTransactions env initialState 0).dispatched = [] →
      (executeTransactions env initialState 0).state.isExecutionCompleted = true →
      (env.safeAppMode = false →
        (executeTransactions env initialState 0).state.transactionsTimeline.map
            TimelineItem.status =
          List.replicate env.wrappers.length TxStatus.confirmed) ∧
      (env.safeAppMode = true →
        (executeTransactions env initialState 0).state.transactionsTimeline.map
            TimelineItem.status = [TxStatus.submittedToSafe])) ∧
    (∀ (env : Env) (a : String),
      env.address = some a →
      (executeTransactions env initialState 0).thrown = none →
      anyBlocking (executeTransactions env initialState 0).state.transactionsTimeline = true →
      (executeTransactions env initialState 0).state.isExecutionCompleted = false) ∧
    (∀ (env : Env) (a m : String),
      env.address = some a → env.safeAppMode = false →
      env.hasAfter = true → env.afterOutcome = Except.error m →
      (executeTransactions env initialState 0).thrown = none →
      anyBlocking (executeTransactions env initialState 0).state.transactionsTimeline = false →
      0 < env.wrappers.length →
      (executeTransactions env initialState 0).dispatched = [m] ∧
      (executeTransactions env initialState 0).state.failedTxIndex = -1 ∧
      (executeTransactions env initialState 0).state.error = none ∧
      (executeTransactions env initialState 0).state.isExecutionCompleted = true) ∧
    (∀ (env : Env) (w : TransactionWrapper) (entries : List SimEntry)
      (resp a tA dA m : String),
      env.address = some a → env.safeAppMode = true → env.wrappers = [w] →
      env.simFetch = Except.ok entries → env.safeSendOutcome = Except.ok resp →
      w.transaction.toAddr = some tA → w.transaction.data = some dA →
      env.hasAfterSafe = true → env.afterSafeOutcome = Except.error m →
      (executeTransactions env initialState 0).dispatched = [m] ∧
      (executeTransactions env initialState 0).state.transactionsTimeline.map
          TimelineItem.status = [TxStatus.submittedToSafe] ∧
      (executeTransactions env initialState 0).state.failedTxIndex = -1 ∧
      (executeTransactions env initialState 0).state.isExecutionCompleted = true) := by
  refine ⟨?_, ?_, ?_, ?_⟩
  · -- (i) completion soundness
    intro env a haddr hthr hdisp hcomp
    constructor
    · -- EOA mode
      intro hmode
      cases hsim1 : (simulateAndAssign env.isTest env.wrappers env.simFetch).1 with
      | error e =>
        rw [execRun_eoa_simfail_shape env a e haddr hmode hsim1] at hthr
        exact Option.noConfusion hthr
      | ok res =>
        have hsh := execRun_eoa_ok_shape env res a haddr hmode hsim1
        dsimp only at hsh
        set st2 : CState :=
          { initialState with
            transactionsTimeline := initTransactionsTimelineItems env.wrappers false } with hst2def
        set E := eoaIter env.networkName env.eoaOutcomes res 0 st2 [] with hEdef
        by_cases hbl : anyBlocking E.1.transactionsTimeline = true
        · exfalso
          rw [if_pos hbl] at hsh
          rw [hsh] at hcomp
          have hfr := (eoaIter_frame env.networkName env.eoaOutcomes res 0 st2 []).2.1
          rw [← hEdef] at hfr
          rw [hfr] at hcomp
          exact Bool.noConfusion hcomp
        · rw [if_neg hbl] at hsh
          have hbl' : anyBlocking E.1.transactionsTimeline = false := Bool.eq_false_iff.mpr hbl
          have hpair : simulateAndAssign env.isTest env.wrappers env.simFetch =
              (Except.ok res, (simulateAndAssign env.isTest env.wrappers env.simFetch).2) := by
            rw [← hsim1]
          obtain ⟨hlen, htitles, _⟩ :=
            simulateAndAssign_ok env.isTest env.wrappers env.simFetch hpair
          have hsub : ∀ w' ∈ res, w'.title ∈
              st2.transactionsTimeline.map TimelineItem.title := by
            intro w' hw'
            have h1 : w'.title ∈ res.map (fun w => w.title) := List.mem_map_of_mem _ hw'
            rw [htitles] at h1
            rw [show st2.transactionsTimeline =
              initTransactionsTimelineItems env.wrappers false from rfl, init_map_title]
            exact h1
          have hblraw : anyBlocking
              (eoaIter env.networkName env.eoaOutcomes res 0 st2 []).1.transactionsTimeline =
              false := by
            rw [← hEdef]
            exact hbl'
          obtain ⟨hfi, herr, hpt⟩ :=
            eoaIter_no_blocking env.networkName env.eoaOutcomes res 0 st2 [] hsub hblraw
          rw [← hEdef] at hfi herr hpt
          have hframe := (eoaIter_frame env.networkName env.eoaOutcomes res 0 st2 []).2.2.2
          rw [← hEdef] at hframe
          have htitleE : E.1.transactionsTimeline.map TimelineItem.title =
              env.wrappers.map TransactionWrapper.title :=
            hframe.trans (init_map_title env.wrappers false)
          have hlenE : E.1.transactionsTimeline.length = env.wrappers.length := by
            have := congrArg List.length htitleE
            rwa [List.length_map, List.length_map] at this
          have hst2len : st2.transactionsTimeline.length = env.wrappers.length :=
            init_length env.wrappers false
          have hallconf : ∀ (p : Nat) (it : TimelineItem),
              E.1.transactionsTimeline[p]? = some it → it.status = TxStatus.confirmed := by
            intro p it hp
            have hplt : p < st2.transactionsTimeline.length := by
              have h1 := (List.getElem?_eq_some.mp hp).1
              rw [hlenE] at h1
              rw [hst2len]
              exact h1
            obtain ⟨it0, hit0⟩ : ∃ it0, st2.transactionsTimeline[p]? = some it0 :=
              ⟨st2.transactionsTimeline[p], List.getElem?_eq_some.mpr ⟨hplt, rfl⟩⟩
            have hmem : it0.title ∈ res.map (fun w => w.title) := by
              rw [htitles, ← init_map_title env.wrappers false]
              exact List.mem_map_of_mem _ (mem_of_idx hit0)
            obtain ⟨it', hit', htt, hconf⟩ := hpt p it0 hit0 hmem
            have heq : it' = it := Option.some.inj (hit'.symm.trans hp).symm.symm
            rw [← heq]
            exact hconf
          cases hlast : env.wrappers[E.1.transactionsTimeline.length - 1]? with
          | none =>
            exfalso
            unfold finalizeEoa at hsh
            rw [hlast] at hsh
            dsimp only at hsh
            rw [hsh] at hdisp
            exact List.noConfusion hdisp
          | some lastW =>
            unfold finalizeEoa at hsh
            rw [hlast] at hsh
            cases hao : afterRun env with
            | error m =>
              exfalso
              rw [hao] at hsh
              dsimp only at hsh
              rw [hsh] at hdisp
              exact List.noConfusion hdisp
            | ok u =>
              rw [hao] at hsh
              dsimp only at hsh
              rw [hsh]
              apply map_status_replicate
              · rw [updateTTS_length, updateTTS_length]
                exact hlenE
              · exact epilogue_all_confirmed _ _ _ _ rfl hallconf
    · -- multisig mode
      intro hmode
      have hsh0 := execRun_safe_shape env a haddr hmode
      dsimp only at hsh0
      cases hsf : env.simFetch with
      | error e =>
        exfalso
        rw [hsf, handleSafe_fetchfail] at hsh0
        dsimp only at hsh0
        rw [hsh0] at hthr
        exact Option.noConfusion hthr
      | ok entries =>
        rw [hsf] at hsh0
        cases hwsc : env.wrappers with
        | nil =>
          exfalso
          rw [hwsc, handleSafe_nil] at hsh0
          dsimp only at hsh0
          rw [hsh0] at hthr
          exact Option.noConfusion hthr
        | cons w tail =>
          cases tail with
          | cons w2 t2 =>
            exfalso
            rw [hwsc] at hsh0
            rw [handleSafe_many _ _ _ _ (by simp)] at hsh0
            dsimp only at hsh0
            rw [hsh0] at hthr
            exact Option.noConfusion hthr
          | nil =>
            rw [hwsc] at hsh0
            cases htA : w.transaction.toAddr with
            | none =>
              exfalso
              rw [handleSafe_noTo entries env.safeSendOutcome _ htA] at hsh0
              dsimp only at hsh0
              rw [hsh0] at hthr
              exact Option.noConfusion hthr
            | some tA =>
              cases hdA : w.transaction.data with
              | none =>
                exfalso
                rw [handleSafe_noData entries env.safeSendOutcome _ htA hdA] at hsh0
                dsimp only at hsh0
                rw [hsh0] at hthr
                exact Option.noConfusion hthr
              | some dA =>
                cases hsend : env.safeSendOutcome with
                | error msg =>
                  exfalso
                  rw [hsend] at hsh0
                  by_cases hrej : isUserRejectionMsg msg = true
                  · rw [handleSafe_single_rejected entries msg _ htA hdA hrej] at hsh0
                    dsimp only at hsh0
                    have htlr : updateTransactionTimelineStatus
                        (initTransactionsTimelineItems [w] true) w.title
                        ⟨TxStatus.rejected, "You rejected the transaction", none⟩ =
                        [{ title := w.title, message := "You rejected the transaction"
                           etherscanUrl := none, status := TxStatus.rejected }] := by
                      show [applyTimelineUpdate w.title _ (initItem true (0, w))] = _
                      have htitle : (initItem true (0, w)).title = w.title := rfl
                      rw [applyTimelineUpdate_of_eq _ _ htitle]
                      rfl
                    rw [htlr] at hsh0
                    rw [if_pos (show anyBlocking
                        [{ title := w.title, message := "You rejected the transaction"
                           etherscanUrl := none, status := TxStatus.rejected }] = true
                        from rfl)] at hsh0
                    rw [hsh0] at hcomp
                    exact Bool.noConfusion hcomp
                  · have hrej' : isUserRejectionMsg msg = false := Bool.eq_false_iff.mpr hrej
                    rw [handleSafe_single_failed entries msg _ htA hdA hrej'] at hsh0
                    dsimp only at hsh0
                    have htlf : updateTransactionTimelineStatus
                        (initTransactionsTimelineItems [w] true) w.title
                        ⟨TxStatus.failed, "Transaction failed", none⟩ =
                        [{ title := w.title, message := "Transaction failed"
                           etherscanUrl := none, status := TxStatus.failed }] := by
                      show [applyTimelineUpdate w.title _ (initItem true (0, w))] = _
                      have htitle : (initItem true (0, w)).title = w.title := rfl
                      rw [applyTimelineUpdate_of_eq _ _ htitle]
                      rfl
                    rw [htlf] at hsh0
                    rw [if_pos (show anyBlocking
                        [{ title := w.title, message := "Transaction failed"
                           etherscanUrl := none, status := TxStatus.failed }] = true
                        from rfl)] at hsh0
                    rw [hsh0] at hcomp
                    exact Bool.noConfusion hcomp
                | ok resp =>
                  rw [execRun_safe_single_shape env w entries resp a tA dA haddr hmode hwsc
                    hsf hsend htA hdA]
                  rfl
  · -- (ii) blocking item disables completion
    intro env a haddr hthr hblock
    by_cases hmode : env.safeAppMode = true
    · have hsh0 := execRun_safe_shape env a haddr hmode
      dsimp only at hsh0
      cases hth : (handleSafeAppTransactions env.wrappers env.simFetch env.safeSendOutcome
          { initialState with
            transactionsTimeline := initTransactionsTimelineItems env.wrappers true }).thrown with
      | some e =>
        exfalso
        rw [hth] at hsh0
        dsimp only at hsh0
        rw [hsh0] at hthr
        exact Option.noConfusion hthr
      | none =>
        rw [hth] at hsh0
        dsimp only at hsh0
        by_cases hbl : anyBlocking
            (handleSafeAppTransactions env.wrappers env.simFetch env.safeSendOutcome
              { initialState with
                transactionsTimeline :=
                  initTransactionsTimelineItems env.wrappers true }).state.transactionsTimeline =
            true
        · rw [if_pos hbl] at hsh0
          rw [hsh0]
          exact (handleSafe_state_frame _ _ _ _).trans rfl
        · exfalso
          rw [if_neg hbl] at hsh0
          cases henv : env.hasAfterSafe with
          | false =>
            rw [henv] at hsh0
            rw [if_neg Bool.false_ne_true] at hsh0
            rw [hsh0] at hblock
            exact hbl hblock
          | true =>
            rw [henv] at hsh0
            rw [if_pos rfl] at hsh0
            cases hresp : (handleSafeAppTransactions env.wrappers env.simFetch
                env.safeSendOutcome
                { initialState with
                  transactionsTimeline :=
                    initTransactionsTimelineItems env.wrappers true }).response with
            | none =>
              rw [hresp] at hsh0
              dsimp only at hsh0
              rw [hsh0] at hthr
              exact Option.noConfusion hthr
            | some resp =>
              rw [hresp] at hsh0
              dsimp only at hsh0
              cases haso : env.afterSafeOutcome with
              | ok u =>
                rw [haso] at hsh0
                dsimp only at hsh0
                rw [hsh0] at hblock
                exact hbl hblock
              | error e =>
                rw [haso] at hsh0
                dsimp only at hsh0
                rw [hsh0] at hblock
                exact hbl hblock
    · have hmode' : env.safeAppMode = false := Bool.eq_false_iff.mpr hmode
      have hsh0 := execRun_eoa_shape env a haddr hmode'
      dsimp only at hsh0
      cases hth : (handleEoaTransactions env.isTest env.networkName env.wrappers env.simFetch
          env.eoaOutcomes 0
          { initialState with
            transactionsTimeline := initTransactionsTimelineItems env.wrappers false }).thrown with
      | some e =>
        exfalso
        rw [hth] at hsh0
        dsimp only at hsh0
        rw [hsh0] at hthr
        exact Option.noConfusion hthr
      | none =>
        rw [hth] at hsh0
        dsimp only at hsh0
        by_cases hbl : anyBlocking
            (handleEoaTransactions env.isTest env.networkName env.wrappers env.simFetch
              env.eoaOutcomes 0
              { initialState with
                transactionsTimeline :=
                  initTransactionsTimelineItems env.wrappers false }).state.transactionsTimeline =
            true
        · rw [if_pos hbl] at hsh0
          rw [hsh0]
          exact (handleEoa_state_frame _ _ _ _ _ _ _).trans rfl
        · exfalso
          rw [if_neg hbl] at hsh0
          have hbl' := Bool.eq_false_iff.mpr hbl
          cases hlast : env.wrappers[(handleEoaTransactions env.isTest env.networkName
              env.wrappers env.simFetch env.eoaOutcomes 0
              { initialState with
                transactionsTimeline :=
                  initTransactionsTimelineItems env.wrappers
                    false }).state.transactionsTimeline.length - 1]? with
          | none =>
            unfold finalizeEoa at hsh0
            rw [hlast] at hsh0
            dsimp only at hsh0
            rw [hsh0] at hblock
            exact hbl hblock
          | some lastW =>
            unfold finalizeEoa at hsh0
            rw [hlast] at hsh0
            cases hao : afterRun env with
            | ok u =>
              rw [hao] at hsh0
              dsimp only at hsh0
              rw [hsh0] at hblock
              have : anyBlocking (updateTransactionTimelineStatus
                  (updateTransactionTimelineStatus
                    (handleEoaTransactions env.isTest env.networkName env.wrappers env.simFetch
                      env.eoaOutcomes 0
                      { initialState with
                        transactionsTimeline :=
                          initTransactionsTimelineItems env.wrappers
                            false }).state.transactionsTimeline lastW.title
                    ⟨TxStatus.finalizing,
                      "Transaction confirmed. " ++ env.duringAfterMsg.getD "Wrapping up...",
                      none⟩) lastW.title
                  ⟨TxStatus.confirmed, "Transaction confirmed", none⟩) = false :=
                anyBlocking_updateTTS _ _ _ (anyBlocking_updateTTS _ _ _ hbl' rfl) rfl
              rw [this] at hblock
              exact Bool.noConfusion hblock
            | error m =>
              rw [hao] at hsh0
              dsimp only at hsh0
              rw [hsh0] at hblock
              have : anyBlocking (updateTransactionTimelineStatus
                  (handleEoaTransactions env.isTest env.networkName env.wrappers env.simFetch
                    env.eoaOutcomes 0
                    { initialState with
                      transactionsTimeline :=
                        initTransactionsTimelineItems env.wrappers
                          false }).state.transactionsTimeline lastW.title
                  ⟨TxStatus.finalizing,
                    "Transaction confirmed. " ++ env.duringAfterMsg.getD "Wrapping up...",
                    none⟩) = false :=
                anyBlocking_updateTTS _ _ _ hbl' rfl
              rw [this] at hblock
              exact Bool.noConfusion hblock
  · -- (iii) after-hook failure is a whole-flow failure
    intro env a m haddr hmode hhas hao hthr hblockf hN
    cases hsim1 : (simulateAndAssign env.isTest env.wrappers env.simFetch).1 with
    | error e =>
      exfalso
      rw [execRun_eoa_simfail_shape env a e haddr hmode hsim1] at hthr
      exact Option.noConfusion hthr
    | ok res =>
      have hsh := execRun_eoa_ok_shape env res a haddr hmode hsim1
      dsimp only at hsh
      set st2 : CState :=
        { initialState with
          transactionsTimeline := initTransactionsTimelineItems env.wrappers false } with hst2def
      set E := eoaIter env.networkName env.eoaOutcomes res 0 st2 [] with hEdef
      by_cases hbl : anyBlocking E.1.transactionsTimeline = true
      · exfalso
        rw [if_pos hbl] at hsh
        rw [hsh] at hblockf
        rw [hblockf] at hbl
        exact Bool.noConfusion hbl
      · rw [if_neg hbl] at hsh
        have hbl' : anyBlocking E.1.transactionsTimeline = false := Bool.eq_false_iff.mpr hbl
        have hpair : simulateAndAssign env.isTest env.wrappers env.simFetch =
            (Except.ok res, (simulateAndAssign env.isTest env.wrappers env.simFetch).2) := by
          rw [← hsim1]
        obtain ⟨hlen, htitles, _⟩ :=
          simulateAndAssign_ok env.isTest env.wrappers env.simFetch hpair
        have hsub : ∀ w' ∈ res, w'.title ∈
            st2.transactionsTimeline.map TimelineItem.title := by
          intro w' hw'
          have h1 : w'.title ∈ res.map (fun w => w.title) := List.mem_map_of_mem _ hw'
          rw [htitles] at h1
          rw [show st2.transactionsTimeline =
            initTransactionsTimelineItems env.wrappers false from rfl, init_map_title]
          exact h1
        have hblraw : anyBlocking
            (eoaIter env.networkName env.eoaOutcomes res 0 st2 []).1.transactionsTimeline =
            false := by
          rw [← hEdef]
          exact hbl'
        obtain ⟨hfi, herr, _⟩ :=
          eoaIter_no_blocking env.networkName env.eoaOutcomes res 0 st2 [] hsub hblraw
        rw [← hEdef] at hfi herr
        have hframe := (eoaIter_frame env.networkName env.eoaOutcomes res 0 st2 []).2.2.2
        rw [← hEdef] at hframe
        have htitleE : E.1.transactionsTimeline.map TimelineItem.title =
            env.wrappers.map TransactionWrapper.title :=
          hframe.trans (init_map_title env.wrappers false)
        have hlenE : E.1.transactionsTimeline.length = env.wrappers.length := by
          have := congrArg List.length htitleE
          rwa [List.length_map, List.length_map] at this
        have hlastlt : E.1.transactionsTimeline.length - 1 < env.wrappers.length := by
          rw [hlenE]
          omega
        obtain ⟨lastW, hlastW⟩ :
            ∃ lw, env.wrappers[E.1.transactionsTimeline.length - 1]? = some lw :=
          ⟨env.wrappers[E.1.transactionsTimeline.length - 1],
            List.getElem?_eq_some.mpr ⟨hlastlt, rfl⟩⟩
        have haoR : afterRun env = Except.error m := by
          unfold afterRun
          rw [hhas]
          rw [if_pos rfl]
          exact hao
        unfold finalizeEoa at hsh
        rw [hlastW, haoR] at hsh
        dsimp only at hsh
        rw [hsh]
        refine ⟨rfl, ?_, ?_, rfl⟩
        · exact hfi.trans rfl
        · exact herr.trans rfl
  · -- (iv) afterSafe-hook failure is a whole-flow failure
    intro env w entries resp a tA dA m haddr hmode hws hsf hsend htA hdA hhasS haoS
    rw [execRun_safe_single_shape env w entries resp a tA dA haddr hmode hws hsf hsend htA hdA]
    refine ⟨?_, rfl, rfl, rfl⟩
    show (if env.hasAfterSafe then _ else _) = [m]
    rw [hhasS]
    rw [if_pos rfl]
    rw [haoS]

/-- Closed instance of the amended C6 statement: the all-success EOA run
ends fully confirmed with the completion flag set, and the after-hook
failure run dispatches the whole-flow failure with failedTxIndex left
at -1. -/
theorem claim6_witness :
    (executeTransactions baseEnv initialState 0).state.transactionsTimeline.map
        TimelineItem.status = List.replicate baseEnv.wrappers.length TxStatus.confirmed ∧
    (executeTransactions envAfterFail initialState 0).dispatched = ["after hook failed"] ∧
    (executeTransactions envAfterFail initialState 0).state.failedTxIndex = -1 ∧
    (executeTransactions envAfterFail initialState 0).state.isExecutionCompleted = true := by
  have hA := (claim6_completion_amended.1 baseEnv "0xme" rfl rfl rfl rfl).1 rfl
  have hC := claim6_completion_amended.2.2.1 envAfterFail "0xme" "after hook failed"
    rfl rfl rfl rfl rfl rfl (by decide)
  exact ⟨hA, hC.1, hC.2.1, hC.2.2.2⟩

theorem not_mem_drop_of_nodup {α : Type} {l : List α} (hnd : l.Nodup) {p k : Nat}
    (hpk : p < k) {x : α} (hx : l[p]? = some x) : ¬ x ∈ l.drop k := by
  intro hmem
  obtain ⟨m, hm⟩ := List.mem_iff_getElem?.mp hmem
  rw [List.getElem?_drop] at hm
  have hplt : p < l.length := (List.getElem?_eq_some.mp hx).1
  have : p = k + m := List.getElem?_inj hplt hnd (hx.trans hm.symm)
  omega

theorem recalc_reset_effects (k : Nat) (st : CState) :
    (recalculateTimelineStatuses (k : Int) st).error = none ∧
    (recalculateTimelineStatuses (k : Int) st).isErrorDetailsVisible = false ∧
    (recalculateTimelineStatuses (k : Int) st).failedTxIndex = -1 ∧
    ∀ (p : Nat) (it : TimelineItem), st.transactionsTimeline[p]? = some it →
      ¬ it.status = TxStatus.confirmed →
      (p = k →
        (recalculateTimelineStatuses (k : Int) st).transactionsTimeline[p]? =
          some { it with status := TxStatus.retrying, message := "Preparing to retry..." }) ∧
      (¬ p = k →
        (recalculateTimelineStatuses (k : Int) st).transactionsTimeline[p]? =
          some { it with
                 status := TxStatus.awaitingPrevious
                 message := "Waiting on previous transaction" }) := by
  refine ⟨rfl, rfl, rfl, ?_⟩
  intro p it hp hnc
  constructor
  · intro hpk
    rw [recalc_getElem, hp, Option.map_some',
      recalcRemapItem_at_retry (k : Int) p hnc (by exact_mod_cast congrArg Nat.cast hpk)]
  · intro hpk
    rw [recalc_getElem, hp, Option.map_some',
      recalcRemapItem_awaiting (k : Int) p hnc (by
        intro hc
        exact hpk (by exact_mod_cast hc))]

/-- C2: for every EOA retry entered at index k (executeTransactions
called with retryIndex = k while failedTxIndex = k), no wrapper at an
index below k is re-submitted, every timeline item already confirmed
keeps its status, message and etherscanUrl (the whole item is
unchanged), the timeline is not re-initialized (its titles are
preserved positionally), and the reset step turns the item at k into
retrying, every other non-confirmed item into awaitingPrevious, and
clears the stored error, the error-details flag and failedTxIndex. -/
theorem claim2_retry_frame :
    ∀ (env : Env) (st : CState) (k : Nat) (a : String),
      env.address = some a →
      env.safeAppMode = false →
      st.failedTxIndex = (k : Int) →
      (env.wrappers.map TransactionWrapper.title).Nodup →
      st.transactionsTimeline.map TimelineItem.title =
        env.wrappers.map TransactionWrapper.title →
      k < st.transactionsTimeline.length →
      (∀ (p : Nat) (it : TimelineItem), st.transactionsTimeline[p]? = some it →
        k ≤ p → ¬ it.status = TxStatus.confirmed) →
      (∀ x ∈ (executeTransactions env st (k : Int)).sentEoa, k ≤ x.1) ∧
      (∀ (p : Nat) (it : TimelineItem), st.transactionsTimeline[p]? = some it →
        it.status = TxStatus.confirmed →
        (executeTransactions env st (k : Int)).state.transactionsTimeline[p]? = some it) ∧
      (executeTransactions env st (k : Int)).state.transactionsTimeline.map
          TimelineItem.title = st.transactionsTimeline.map TimelineItem.title ∧
      ((recalculateTimelineStatuses (k : Int) st).error = none ∧
        (recalculateTimelineStatuses (k : Int) st).isErrorDetailsVisible = false ∧
        (recalculateTimelineStatuses (k : Int) st).failedTxIndex = -1 ∧
        ∀ (p : Nat) (it : TimelineItem), st.transactionsTimeline[p]? = some it →
          ¬ it.status = TxStatus.confirmed →
          (p = k →
            (recalculateTimelineStatuses (k : Int) st).transactionsTimeline[p]? =
              some { it with status := TxStatus.retrying, message := "Preparing to retry..." }) ∧
          (¬ p = k →
            (recalculateTimelineStatuses (k : Int) st).transactionsTimeline[p]? =
              some { it with
                     status := TxStatus.awaitingPrevious
                     message := "Waiting on previous transaction" })) := by
  intro env st k a haddr hmode hfi hnodup halign hk hnotconf
  have hne : st.failedTxIndex ≠ -1 := by
    rw [hfi]
    intro hc
    omega
  rw [executeTransactions_eoa env st (k : Int) a haddr hmode]
  dsimp only
  rw [if_pos hne]
  set R := recalculateTimelineStatuses (k : Int) st with hRdef
  have hRtitles : R.transactionsTimeline.map TimelineItem.title =
      st.transactionsTimeline.map TimelineItem.title := by
    rw [hRdef]
    exact recalc_map_title (k : Int) st
  have hRlen : R.transactionsTimeline.length = st.transactionsTimeline.length := by
    have h := congrArg List.length hRtitles
    rwa [List.length_map, List.length_map] at h
  rw [if_neg (show ¬(R.transactionsTimeline.length = 0) from by rw [hRlen]; omega)]
  cases hsim1 : (simulateAndAssign env.isTest env.wrappers env.simFetch).1 with
  | error e =>
    rw [handleEoa_simfail env.isTest env.networkName env.wrappers env.simFetch
      env.eoaOutcomes (k : Int) R hsim1]
    dsimp only
    refine ⟨?_, ?_, hRtitles, recalc_reset_effects k st⟩
    · intro x hx
      exact absurd hx (List.not_mem_nil x)
    · intro p it hp hc
      exact recalc_confirmed_fixed (k : Int) st hp hc
  | ok res =>
    rw [handleEoa_ok env.isTest env.networkName env.wrappers env.simFetch env.eoaOutcomes
      (k : Int) R hsim1 (Int.natCast_nonneg k)]
    rw [Int.toNat_natCast]
    dsimp only
    set E := eoaIter env.networkName env.eoaOutcomes (res.drop k) k R [] with hEdef
    have hpair : simulateAndAssign env.isTest env.wrappers env.simFetch =
        (Except.ok res, (simulateAndAssign env.isTest env.wrappers env.simFetch).2) := by
      rw [← hsim1]
    obtain ⟨hreslen, hrestitles, _⟩ :=
      simulateAndAssign_ok env.isTest env.wrappers env.simFetch hpair
    have hsent : ∀ x ∈ E.2, k ≤ x.1 := by
      intro x hx
      rcases eoaIter_sent_mem env.networkName env.eoaOutcomes (res.drop k) k R [] x hx with
        h | h
      · exact absurd h (List.not_mem_nil x)
      · exact h
    have hEtitles : E.1.transactionsTimeline.map TimelineItem.title =
        st.transactionsTimeline.map TimelineItem.title := by
      have h := (eoaIter_frame env.networkName env.eoaOutcomes (res.drop k) k R []).2.2.2
      rw [← hEdef] at h
      exact h.trans hRtitles
    have hElen : E.1.transactionsTimeline.length = st.transactionsTimeline.length := by
      have h := congrArg List.length hEtitles
      rwa [List.length_map, List.length_map] at h
    have hpreserved : ∀ (p : Nat) (it : TimelineItem), st.transactionsTimeline[p]? = some it →
        it.status = TxStatus.confirmed → E.1.transactionsTimeline[p]? = some it := by
      intro p it hp hc
      have hpk : p < k := by
        by_contra hlt
        exact hnotconf p it hp (Nat.le_of_not_lt hlt) hc
      have hR : R.transactionsTimeline[p]? = some it :=
        recalc_confirmed_fixed (k : Int) st hp hc
      have hxw : (env.wrappers.map TransactionWrapper.title)[p]? = some it.title := by
        rw [← halign, List.getElem?_map, hp, Option.map_some']
      have hnotin : ¬ it.title ∈ (res.drop k).map (fun w => w.title) := by
        rw [List.map_drop, hrestitles]
        exact not_mem_drop_of_nodup hnodup hpk hxw
      have h := eoaIter_untouched env.networkName env.eoaOutcomes (res.drop k) k R []
        p it hR hnotin
      rw [← hEdef] at h
      exact h
    have hwslen : env.wrappers.length = st.transactionsTimeline.length := by
      have h := congrArg List.length halign
      rw [List.length_map, List.length_map] at h
      exact h.symm
    by_cases hbl : anyBlocking E.1.transactionsTimeline = true
    · rw [if_pos hbl]
      exact ⟨hsent, fun p it hp hc => hpreserved p it hp hc, hEtitles,
        recalc_reset_effects k st⟩
    · rw [if_neg hbl]
      have hlastlt : E.1.transactionsTimeline.length - 1 < env.wrappers.length := by
        omega
      obtain ⟨lastW, hlast⟩ :
          ∃ lw, env.wrappers[E.1.transactionsTimeline.length - 1]? = some lw :=
        ⟨env.wrappers[E.1.transactionsTimeline.length - 1],
          List.getElem?_eq_some.mpr ⟨hlastlt, rfl⟩⟩
      have hlastTitle : (env.wrappers.map
          TransactionWrapper.title)[E.1.transactionsTimeline.length - 1]? =
          some lastW.title := by
        rw [List.getElem?_map, hlast, Option.map_some']
      have hnelast : ∀ (p : Nat) (it : TimelineItem), st.transactionsTimeline[p]? = some it →
          it.status = TxStatus.confirmed → ¬ it.title = lastW.title := by
        intro p it hp hc hteq
        have hpk : p < k := by
          by_contra hlt
          exact hnotconf p it hp (Nat.le_of_not_lt hlt) hc
        have hxw : (env.wrappers.map TransactionWrapper.title)[p]? = some it.title := by
          rw [← halign, List.getElem?_map, hp, Option.map_some']
        have hplt : p < (env.wrappers.map TransactionWrapper.title).length := by
          rw [List.length_map]
          omega
        have hpe : p = E.1.transactionsTimeline.length - 1 :=
          List.getElem?_inj hplt hnodup (by rw [hxw, hteq, hlastTitle])
        omega
      unfold finalizeEoa
      rw [hlast]
      dsimp only
      cases hao : afterRun env with
      | ok u =>
        dsimp only
        refine ⟨hsent, ?_, ?_, recalc_reset_effects k st⟩
        · intro p it hp hc
          have hne1 := hnelast p it hp hc
          exact updateTTS_untouched _ _ _
            (updateTTS_untouched _ _ _ (hpreserved p it hp hc) hne1) hne1
        · rw [updateTTS_map_title, updateTTS_map_title]
          exact hEtitles
      | error m =>
        dsimp only
        refine ⟨hsent, ?_, ?_, recalc_reset_effects k st⟩
        · intro p it hp hc
          exact updateTTS_untouched _ _ _ (hpreserved p it hp hc) (hnelast p it hp hc)
        · rw [updateTTS_map_title]
          exact hEtitles

/-- Closed instance of C2: retrying the failed-at-1 state keeps item 0
(confirmed, with its message and explorer link) fully intact, and the
reset step clears failedTxIndex and turns item 1 into retrying. -/
theorem claim2_witness :
    (executeTransactions baseEnv stFailedEx 1).state.transactionsTimeline[0]? =
      some ⟨"a", "Transaction confirmed", some "etherscan/mainnet/0xr",
        TxStatus.confirmed⟩ ∧
    (recalculateTimelineStatuses 1 stFailedEx).failedTxIndex = -1 ∧
    (recalculateTimelineStatuses 1 stFailedEx).transactionsTimeline[1]? =
      some ⟨"b", "Preparing to retry...", none, TxStatus.retrying⟩ := by
  have hnotconf : ∀ (p : Nat) (it : TimelineItem),
      stFailedEx.transactionsTimeline[p]? = some it → 1 ≤ p →
      ¬ it.status = TxStatus.confirmed := by
    intro p it hp hpge
    cases p with
    | zero => omega
    | succ q =>
      cases q with
      | zero =>
        have hb : it = ⟨"b", "You rejected the transaction", none, TxStatus.rejected⟩ :=
          (Option.some.inj hp).symm
        rw [hb]
        intro hc
        cases hc
      | succ r =>
        have hnone : stFailedEx.transactionsTimeline[Nat.succ (Nat.succ r)]? = none :=
          List.getElem?_eq_none (show (2 : Nat) ≤ r + 2 by omega)
        exact Option.noConfusion (hnone.symm.trans hp)
  obtain ⟨hsent, hpres, htitles, hreset⟩ := claim2_retry_frame baseEnv stFailedEx 1 "0xme"
    rfl rfl rfl (by decide) rfl (by decide) hnotconf
  refine ⟨?_, hreset.2.2.1, ?_⟩
  · exact hpres 0 _ rfl rfl
  · exact (hreset.2.2.2 1 ⟨"b", "You rejected the transaction", none, TxStatus.rejected⟩
      rfl (by decide)).1 rfl
